import Mathlib

/-!
# OpenHD wireless link helpers: a shallow embedding

Definitions mirror the C++ sources under `OpenHD/ohd_interface` and
`OpenHD/ohd_common`:

* `wb_link_helper.h`          : `FrameDropsHelper`, `ForeignPacketsHelper`
* `wb_link_rate_helper.hpp`   : rate tables and FEC arithmetic
* `validate_settings_helper.h`: range validators
* `wb_link_work_item.hpp`, `wb_link.h` : work items and the work queue
* `openhd_settings_persistent.h` : `PersistentSettings`
* `networking_settings.h`, `ohd_interface.cpp` : networking settings, hotspot,
  link selection
* `openhd_action_handler.h`   : progress records of `LinkActionHandler`
* `wb_link_settings.h`, `openhd_platform.h` : default settings, platform identifiers

Arithmetic on `int` that leaves the 32 bit range is reduced modulo `2 ^ 32`.

Time points of `std::chrono::steady_clock` are integers counting nanoseconds.
Every read of the clock made by a member function is an explicit argument.
-/

namespace openhd

/-- Two's complement reduction of an integer to the range of a 32 bit `int`. -/
def wrap_int32 (x : Int) : Int := (x + 2 ^ 31) % 2 ^ 32 - 2 ^ 31

/-- Conversion of an integer to `uint32_t` (reduction modulo `2 ^ 32`). -/
def to_uint32 (x : Int) : Nat := (x % 2 ^ 32).toNat

/-- Nanoseconds per second: `std::chrono::seconds(n)` as a steady clock duration. -/
def seconds (n : Int) : Int := n * 1000000000

/-- Nanoseconds per millisecond: `std::chrono::milliseconds(n)` as a clock duration. -/
def milliseconds (n : Int) : Int := n * 1000000

namespace wb

/-! ## FrameDropsHelper (wb_link_helper.h) -/

/-- Data members of `FrameDropsHelper` (the logger `m_console` has no influence
on results and is left out). -/
structure FrameDropsHelper where
  /-- Field `std::chrono::steady_clock::time_point m_last_check`. -/
  m_last_check : Int
  /-- Field `std::atomic_int m_frame_drop_counter`. -/
  m_frame_drop_counter : Int
  /-- Field `std::optional<time_point> m_opt_no_error_delay`. -/
  m_opt_no_error_delay : Option Int
  deriving DecidableEq, Repr

namespace FrameDropsHelper

/-- State after construction at clock reading `now`:
`m_last_check = now()`, counter `0`, no delay. -/
def init (now : Int) : FrameDropsHelper :=
  { m_last_check := now, m_frame_drop_counter := 0, m_opt_no_error_delay := none }

/-- Constant `MAX_DROPPED_FRAMES_ALLOWED` of `needs_bitrate_reduction`. -/
def MAX_DROPPED_FRAMES_ALLOWED : Int := 3

/-- Member `notify_dropped_frame(int n_dropped = 1)`:
`m_frame_drop_counter += n_dropped` on a 32 bit atomic (wrapping). -/
def notify_dropped_frame (s : FrameDropsHelper) (n_dropped : Int) : FrameDropsHelper :=
  { s with m_frame_drop_counter := wrap_int32 (s.m_frame_drop_counter + n_dropped) }

/-- Member `delay_for(delay)` called at clock reading `now`, `delay` in milliseconds:
`m_opt_no_error_delay = now() + delay`. -/
def delay_for (s : FrameDropsHelper) (now : Int) (delay : Int) : FrameDropsHelper :=
  { s with m_opt_no_error_delay := some (now + milliseconds delay) }

/-- Member `needs_bitrate_reduction()`. The clock is read when the call decides
(`now`: the comparison with the delay, resp. the computation of `elapsed`) and
again when `m_last_check` is stored (`stamp`). The value `elapsed` computed in
the delay branch only feeds the log line. Returns the result and the new state. -/
def needs_bitrate_reduction (s : FrameDropsHelper) (now stamp : Int) :
    Bool × FrameDropsHelper :=
  match s.m_opt_no_error_delay with
  | some until_ =>
    if now ≥ until_ then
      (false, { m_last_check := stamp, m_frame_drop_counter := 0,
                m_opt_no_error_delay := none })
    else
      (false, s)
  | none =>
    let elapsed := now - s.m_last_check
    if elapsed ≥ seconds 3 then
      let dropped_since_last_check := s.m_frame_drop_counter
      let s1 : FrameDropsHelper :=
        { s with m_last_check := stamp, m_frame_drop_counter := 0 }
      if dropped_since_last_check > MAX_DROPPED_FRAMES_ALLOWED then
        (true, s1)
      else
        (false, s1)
    else
      (false, s)

/-- Repeated `notify_dropped_frame()` with the default argument, `k` times. -/
def notify_times (s : FrameDropsHelper) : Nat → FrameDropsHelper
  | 0 => s
  | k + 1 => notify_times (notify_dropped_frame s 1) k

/-- A call made by a user of the helper between two uses of `delay_for`:
a drop notification or a check (with its two clock readings). -/
inductive Call where
  | notify (n_dropped : Int)
  | check (now stamp : Int)
  deriving DecidableEq, Repr

/-- Runs a sequence of calls, collecting the results of the checks in order. -/
def run (s : FrameDropsHelper) : List Call → List Bool × FrameDropsHelper
  | [] => ([], s)
  | Call.notify n :: cs => run (notify_dropped_frame s n) cs
  | Call.check now stamp :: cs =>
    let r := needs_bitrate_reduction s now stamp
    let rest := run r.2 cs
    (r.1 :: rest.1, rest.2)

/-- The clock reading that decides a call lies in `[lo, hi)` (no constraint on
notifications, which do not read the clock). -/
def Call.within (lo hi : Int) : Call → Prop
  | Call.notify _ => True
  | Call.check now _ => lo ≤ now ∧ now < hi

end FrameDropsHelper

/-! ## Rate tables (wb_link_rate_helper.hpp) -/

/-- Struct `Rate20Mhz40Mhz` (two `uint32_t` fields). -/
structure Rate20Mhz40Mhz where
  rate_20mhz : Nat
  rate_40mhz : Nat
  deriving DecidableEq, Repr

/-- Function `rtl8812au_get_max_rate_5G_kbits(uint16_t mcs_index)`. -/
def rtl8812au_get_max_rate_5G_kbits (mcs_index : Nat) : Rate20Mhz40Mhz :=
  match mcs_index with
  | 0 => ⟨5700 - 1000, 10400 - 3000⟩
  | 1 => ⟨10800 - 1000, 18800 - 3500⟩
  | 2 => ⟨15200 - 2000, 26600 - 6000⟩
  | 3 => ⟨19200 - 3000, 30000 - 5000⟩
  | 4 => ⟨20000, 30000⟩
  | 5 => ⟨23000, 40000⟩
  | 6 => ⟨26000, 50000⟩
  | 7 => ⟨29000, 55000⟩
  | 8 => ⟨11700 - 3000, 22100 - 4000⟩
  | 9 => ⟨21000 - 3000, 32000 - 4000⟩
  | 10 => ⟨25000 - 3000, 37000 - 4000⟩
  | 11 => ⟨30000 - 3000, 50000 - 4000⟩
  | 12 => ⟨30000 - 3000, 50000 - 4000⟩
  | _ => ⟨5000, 5000⟩

/-- Overload `rtl8812au_get_max_rate_5G_kbits(uint16_t mcs_index, bool is_40_mhz)`. -/
def rtl8812au_get_max_rate_5G_kbits_bw (mcs_index : Nat) (is_40_mhz : Bool) : Nat :=
  let rate_kbits := rtl8812au_get_max_rate_5G_kbits mcs_index
  if is_40_mhz then rate_kbits.rate_40mhz else rate_kbits.rate_20mhz

/-! ### FEC arithmetic

`double` values are rationals; every arithmetic operation on `double` rounds its
exact result to IEEE 754 binary64 (round to nearest, ties to even). For `int`
arguments no intermediate value of the functions below reaches the overflow
threshold `2 ^ 1024`, so infinities are only produced by a division by zero. -/

/-- Rounding of a rational to the nearest integer, ties to the even neighbour. -/
def round_half_even (x : ℚ) : Int :=
  let f := ⌊x⌋
  let r := x - f
  if r < 1 / 2 then f
  else if 1 / 2 < r then f + 1
  else if f % 2 = 0 then f else f + 1

/-- Exponent of the binary64 grid around `x`: 53 significant bits, and the
subnormal step `2 ^ (-1074)` near zero. -/
def double_exponent (x : ℚ) : Int := max (Int.log 2 |x| - 52) (-1074)

/-- The binary64 value nearest to `x` (ties to even), for `|x|` below
the overflow threshold. -/
def round_to_double (x : ℚ) : ℚ :=
  if x = 0 then 0
  else (round_half_even (x / 2 ^ double_exponent x) : ℚ) * 2 ^ double_exponent x

/-- Library function `std::roundl`: nearest integer, halfway cases away from zero. -/
def roundl (x : ℚ) : Int := if 0 ≤ x then ⌊x + 1 / 2⌋ else -⌊-x + 1 / 2⌋

/-- Function `deduce_fec_overhead(int bandwidth_kbits, int fec_overhead_perc)`:
`tmp = bandwidth_kbits * 100.0 / (100.0 + fec_overhead_perc)` in `double`, then
`static_cast<int>(std::roundl(tmp))`. The result is `none` where the C++ cast is
undefined: `tmp` infinite or NaN (zero divisor) or the rounded value outside the
range of `int`. -/
def deduce_fec_overhead (bandwidth_kbits fec_overhead_perc : Int) : Option Int :=
  let num := round_to_double ((bandwidth_kbits : ℚ) * 100)
  let den := round_to_double (100 + (fec_overhead_perc : ℚ))
  if den = 0 then none
  else
    let tmp := round_to_double (num / den)
    let r := roundl tmp
    if -2 ^ 31 ≤ r ∧ r < 2 ^ 31 then some r else none

/-- The specification's rounding: the integer nearest to a rational, ties away
from zero. -/
def round_nearest_ties_away (q : ℚ) : Int :=
  if 0 ≤ q then ⌊q + 1 / 2⌋ else ⌈q - 1 / 2⌉

end wb

/-! ## Validators (validate_settings_helper.h) -/

/-- Function `is_valid_mcs_index(uint32_t mcs_index)`. -/
def is_valid_mcs_index (mcs_index : Nat) : Bool :=
  decide (mcs_index ≥ 0) && decide (mcs_index ≤ 31)

/-- Function `is_valid_tx_power_milli_watt(int tx_power_mw)`. -/
def is_valid_tx_power_milli_watt (tx_power_mw : Int) : Bool :=
  decide (tx_power_mw ≥ 10) && decide (tx_power_mw ≤ 30 * 1000)

/-- Function `is_valid_fec_percentage(int fec_perc)` (the warning log is left out). -/
def is_valid_fec_percentage (fec_perc : Int) : Bool :=
  let valid := decide (fec_perc > 0) && decide (fec_perc ≤ 400)
  valid

/-! ## Work items and the work queue (wb_link_work_item.hpp, wb_link.h) -/

/-- Class `WorkItem`: tag and earliest execution time. The closure `m_work` runs
on the link and never on the queue, it is not represented. -/
structure WorkItem where
  TAG : String
  m_earliest_execution_time : Int
  deriving DecidableEq, Repr

/-- Member `WorkItem::ready_to_be_executed()` at clock reading `now`. -/
def WorkItem.ready_to_be_executed (w : WorkItem) (now : Int) : Bool :=
  decide (now ≥ w.m_earliest_execution_time)

/-- Modelled from the spec: the body of `WBLink::try_schedule_work_item`, declared
in wb_link.h and defined in wb_link.cpp, which is not among the sources. The
declaration says: returns true if the work item queue is currently empty and the
item has been added, false otherwise. The argument `q` is `m_work_item_queue`. -/
def try_schedule_work_item (q : List WorkItem) (work_item : WorkItem) :
    Bool × List WorkItem :=
  if q.isEmpty then (true, q ++ [work_item]) else (false, q)

/-- Modelled from the spec: the worker loop step on the queue (wb_link.cpp, not
among the sources): dequeue and execute the single pending WorkItem if
`ready_to_be_executed()`. -/
def wt_execute_pending (q : List WorkItem) (now : Int) : List WorkItem :=
  match q with
  | [] => []
  | front :: rest => if front.ready_to_be_executed now then rest else front :: rest

/-- States of `m_work_item_queue` reachable from the empty queue of a new link
by admission attempts and worker steps. -/
inductive QueueReachable : List WorkItem → Prop where
  | start : QueueReachable []
  | schedule (q : List WorkItem) (w : WorkItem) :
      QueueReachable q → QueueReachable (try_schedule_work_item q w).2
  | work (q : List WorkItem) (now : Int) :
      QueueReachable q → QueueReachable (wt_execute_pending q now)

/-- Function `is_valid_channel_width(uint32_t channel_width)`. -/
def is_valid_channel_width (channel_width : Nat) : Bool :=
  decide (channel_width = 20) || decide (channel_width = 40)

namespace wb

/-! ## Rate lookup per card and band (wb_link_rate_helper.hpp) -/

/-- Modelled from the spec: the enumeration `WiFiCardType` of wifi_card.h, which is
not among the sources. The six enumerators are the ones the rate helper names;
`OTHER n` stands for any further enumerator. -/
inductive WiFiCardType where
  | OPENHD_RTL_88X2AU
  | OPENHD_RTL_88X2BU
  | OPENHD_RTL_88X2CU
  | OPENHD_RTL_88X2EU
  | OPENHD_RTL_8852BU
  | OPENHD_EMULATED
  | OTHER (n : Nat)
  deriving DecidableEq, Repr

/-- Modelled from the spec: the struct `WiFiCard` of wifi_card.h (not among the
sources), reduced to the member `type` read by the rate helper. -/
structure WiFiCard where
  type : WiFiCardType
  deriving DecidableEq, Repr

/-- Modelled from the spec: the enumeration `WifiSpace` of wifi_channel.h (not
among the sources), with the two enumerators the rate helper names. -/
inductive WifiSpace where
  | G2_4
  | G5_8
  deriving DecidableEq, Repr

/-- Function `get_max_rate_possible_5G_kbits(card, mcs_index, is_40Mhz)`. -/
def get_max_rate_possible_5G_kbits (card : WiFiCard) (mcs_index : Nat) (is_40Mhz : Bool) :
    Nat :=
  if card.type = WiFiCardType.OPENHD_RTL_88X2AU ∨
      card.type = WiFiCardType.OPENHD_RTL_88X2BU ∨
      card.type = WiFiCardType.OPENHD_RTL_88X2CU ∨
      card.type = WiFiCardType.OPENHD_RTL_88X2EU ∨
      card.type = WiFiCardType.OPENHD_RTL_8852BU ∨
      card.type = WiFiCardType.OPENHD_EMULATED then
    rtl8812au_get_max_rate_5G_kbits_bw mcs_index is_40Mhz
  else
    5000

/-- Function `get_max_rate_possible_2G_kbits(card, mcs_index, is_40Mhz)`:
`rate_5G * 100 / 80` in `uint32_t` arithmetic. -/
def get_max_rate_possible_2G_kbits (card : WiFiCard) (mcs_index : Nat) (is_40Mhz : Bool) :
    Nat :=
  let rate_5G := get_max_rate_possible_5G_kbits card mcs_index is_40Mhz
  (rate_5G * 100 % 2 ^ 32) / 80

/-- Function `get_max_rate_possible(card, wifi_space, mcs_index, is_40Mhz)`; the
assertion `wifi_space == WifiSpace::G5_8` holds for the one remaining enumerator. -/
def get_max_rate_possible (card : WiFiCard) (wifi_space : WifiSpace) (mcs_index : Nat)
    (is_40Mhz : Bool) : Nat :=
  if wifi_space = WifiSpace.G2_4 then
    get_max_rate_possible_2G_kbits card mcs_index is_40Mhz
  else
    get_max_rate_possible_5G_kbits card mcs_index is_40Mhz

/-- Function `multiply_by_perc(int bandwidth_kbits, int percentage)`:
`bandwidth_kbits * percentage / 100` in `int` arithmetic (the product reduced to
32 bits, the division truncating). -/
def multiply_by_perc (bandwidth_kbits percentage : Int) : Int :=
  Int.tdiv (wrap_int32 (bandwidth_kbits * percentage)) 100

/-! ## ForeignPacketsHelper (wb_link_helper.h) -/

/-- Data members of `ForeignPacketsHelper`. -/
structure ForeignPacketsHelper where
  /-- Field `uint64_t m_foreign_packets_last_time`. -/
  m_foreign_packets_last_time : Nat
  /-- Field `int m_pps_foreign_packets_count`. -/
  m_pps_foreign_packets_count : Int
  /-- Field `std::chrono::steady_clock::time_point m_pps_last_recalculation`. -/
  m_pps_last_recalculation : Int
  /-- Field `int m_pps_current`. -/
  m_pps_current : Int
  deriving DecidableEq, Repr

namespace ForeignPacketsHelper

/-- State after construction at clock reading `now`. -/
def init (now : Int) : ForeignPacketsHelper :=
  { m_foreign_packets_last_time := 0, m_pps_foreign_packets_count := 0,
    m_pps_last_recalculation := now, m_pps_current := -1 }

/-- Member `get_foreign_packets_per_second()`. -/
def get_foreign_packets_per_second (s : ForeignPacketsHelper) : Int := s.m_pps_current

/-- Division of two `int` values, truncating towards zero; `none` where the C++
division is undefined and traps: a zero divisor, or `INT_MIN / -1`. -/
def int_div (a b : Int) : Option Int :=
  if b = 0 then none
  else if a = -2 ^ 31 ∧ b = -1 then none
  else some (Int.tdiv a b)

/-- Member `update_n_foreign_packets(int n_foreign_packets)`. The clock is read for
`elapsed` (`now`) and again for the stored recalculation time (`stamp`). The
result is `none` when the assertion `n_foreign_packets >= 0` fails and when the
division by `elapsed_us` is undefined. Sums and products of `int` are reduced to
32 bits; `elapsed_us` is the elapsed time in microseconds converted to `int`. -/
def update_n_foreign_packets (s : ForeignPacketsHelper) (n_foreign_packets : Int)
    (now stamp : Int) : Option ForeignPacketsHelper :=
  if n_foreign_packets ≥ 0 then
    let s1 : ForeignPacketsHelper :=
      { s with m_pps_foreign_packets_count :=
          wrap_int32 (s.m_pps_foreign_packets_count + n_foreign_packets) }
    let elapsed := now - s1.m_pps_last_recalculation
    if elapsed > seconds 1 then
      let s2 : ForeignPacketsHelper := { s1 with m_pps_last_recalculation := stamp }
      if s2.m_pps_foreign_packets_count ≤ 0 then
        some { s2 with m_pps_current := 0 }
      else
        let elapsed_us := wrap_int32 (Int.tdiv elapsed 1000)
        match int_div (wrap_int32 (wrap_int32 (s2.m_pps_foreign_packets_count * 1000) * 1000))
            elapsed_us with
        | none => none
        | some pps =>
          some { s2 with m_pps_current := pps, m_pps_foreign_packets_count := 0 }
    else
      some s1
  else
    none

/-- Member `update(uint64_t count_p_any, uint64_t count_p_valid)`; `delta` is the
`uint64_t` difference converted to `int`. -/
def update (s : ForeignPacketsHelper) (count_p_any count_p_valid : Nat) (now stamp : Int) :
    Option ForeignPacketsHelper :=
  let n_foreign_packets : Nat :=
    if count_p_any > count_p_valid then count_p_any - count_p_valid else 0
  if s.m_foreign_packets_last_time > n_foreign_packets then
    some { s with m_foreign_packets_last_time := n_foreign_packets }
  else
    let delta : Int :=
      wrap_int32 (((n_foreign_packets - s.m_foreign_packets_last_time) % 2 ^ 64 : Nat) : Int)
    let s1 : ForeignPacketsHelper := { s with m_foreign_packets_last_time := n_foreign_packets }
    update_n_foreign_packets s1 delta now stamp

end ForeignPacketsHelper

end wb

/-! ## Persistent settings (openhd_settings_persistent.h) -/

/-- Observable effects of the settings code, in the order in which they happen. -/
inductive Event where
  | file_written (path content : String)
  | settings_changed_callback
  deriving DecidableEq, Repr

/-- Modelled from the spec: the file system behind `OHDFilesystemUtil`
(openhd_util_filesystem.h is not among the sources): the directories that exist
and the content of the files that exist. -/
structure FileSystem where
  directories : String → Bool
  files : String → Option String

/-- The state outside the settings objects: the file system and the trace of
the events so far. -/
structure World where
  fs : FileSystem
  trace : List Event

/-- Modelled from the spec: `OHDFilesystemUtil::exists(path)`, not among the
sources: the path names an existing directory or file. -/
def OHDFilesystemUtil.exists (w : World) (path : String) : Bool :=
  w.fs.directories path || (w.fs.files path).isSome

namespace OHDFilesystemUtil

/-- Modelled from the spec: `OHDFilesystemUtil::create_directory(path)`, not among
the sources. -/
def create_directory (w : World) (path : String) : World :=
  { w with fs := { w.fs with
      directories := fun p => if p = path then true else w.fs.directories p } }

/-- Modelled from the spec: `OHDFilesystemUtil::opt_read_file(path)`, not among the
sources: the content of the file, or nothing if the file does not exist. -/
def opt_read_file (w : World) (path : String) : Option String := w.fs.files path

/-- Modelled from the spec: `OHDFilesystemUtil::write_file(path, content)`, not
among the sources: the file holds `content` afterwards; the write is recorded. -/
def write_file (w : World) (path content : String) : World :=
  { fs := { w.fs with files := fun p => if p = path then some content else w.fs.files p },
    trace := w.trace ++ [Event.file_written path content] }

end OHDFilesystemUtil

/-- The pure virtual members of `PersistentSettings<T>` which a holder overrides. -/
structure PersistentSettingsImpl (T : Type) where
  get_unique_filename : String
  create_default : T
  impl_deserialize : String → Option T
  imp_serialize : T → String

/-- Data members of `PersistentSettings<T>`: `_settings` is the `unique_ptr` (empty
before `init`), `_settings_changed_callback` tells whether a listener is
registered. The effect of the listener lies outside the settings; its
invocation is recorded in the trace. -/
structure PersistentSettings (T : Type) where
  _base_path : String
  _settings : Option T
  _settings_changed_callback : Bool

namespace PersistentSettings

variable {T : Type}

/-- Member `get_file_path()`. -/
def get_file_path (impl : PersistentSettingsImpl T) (p : PersistentSettings T) : String :=
  p._base_path ++ impl.get_unique_filename

/-- Member `get_settings()`; `none` when `assert(_settings)` fails. -/
def get_settings (p : PersistentSettings T) : Option T := p._settings

/-- Member `unsafe_get_settings()`; `none` when `assert(_settings)` fails. -/
def unsafe_get_settings (p : PersistentSettings T) : Option T := p._settings

/-- Invocation of `_settings_changed_callback()`. -/
def invoke_callback (w : World) : World :=
  { w with trace := w.trace ++ [Event.settings_changed_callback] }

/-- Member `persist_settings()`; `none` when `assert(_settings)` fails. -/
def persist_settings (impl : PersistentSettingsImpl T) (p : PersistentSettings T)
    (w : World) : Option World :=
  match p._settings with
  | none => none
  | some settings =>
    let file_path := get_file_path impl p
    let content := impl.imp_serialize settings
    some (OHDFilesystemUtil.write_file w file_path content)

/-- Member `persist(bool trigger_restart = true)`. -/
def persist (impl : PersistentSettingsImpl T) (p : PersistentSettings T) (w : World)
    (trigger_restart : Bool) : Option World :=
  match persist_settings impl p w with
  | none => none
  | some w1 =>
    if p._settings_changed_callback && trigger_restart then some (invoke_callback w1)
    else some w1

/-- Member `update_settings(const T& new_settings)`. -/
def update_settings (impl : PersistentSettingsImpl T) (p : PersistentSettings T)
    (w : World) (new_settings : T) : Option (PersistentSettings T × World) :=
  let p1 : PersistentSettings T := { p with _settings := some new_settings }
  match persist_settings impl p1 w with
  | none => none
  | some w1 =>
    if p1._settings_changed_callback then some (p1, invoke_callback w1)
    else some (p1, w1)

/-- Member `register_listener(callback)`; `none` when the assertion that no
listener is registered yet fails. -/
def register_listener (p : PersistentSettings T) : Option (PersistentSettings T) :=
  if p._settings_changed_callback then none
  else some { p with _settings_changed_callback := true }

/-- Member `read_last_settings()`. -/
def read_last_settings (impl : PersistentSettingsImpl T) (p : PersistentSettings T)
    (w : World) : Option T :=
  let file_path := get_file_path impl p
  match OHDFilesystemUtil.opt_read_file w file_path with
  | none => none
  | some content => impl.impl_deserialize content

/-- Member `init()`. -/
def init (impl : PersistentSettingsImpl T) (p : PersistentSettings T) (w : World) :
    Option (PersistentSettings T × World) :=
  let w1 :=
    if !OHDFilesystemUtil.exists w p._base_path then
      OHDFilesystemUtil.create_directory w p._base_path
    else w
  match read_last_settings impl p w1 with
  | some last_settings => some ({ p with _settings := some last_settings }, w1)
  | none =>
    let p1 : PersistentSettings T := { p with _settings := some impl.create_default }
    match persist_settings impl p1 w1 with
    | none => none
    | some w2 => some (p1, w2)

end PersistentSettings

/-! ## Networking settings and the interface (networking_settings.h, ohd_interface.cpp) -/

/-- Constant `WIFI_HOTSPOT_AUTO`. -/
def WIFI_HOTSPOT_AUTO : Int := 0

/-- Constant `WIFI_HOTSPOT_ALWAYS_OFF`. -/
def WIFI_HOTSPOT_ALWAYS_OFF : Int := 1

/-- Constant `WIFI_HOTSPOT_ALWAYS_ON`. -/
def WIFI_HOTSPOT_ALWAYS_ON : Int := 2

/-- Constant `ETHERNET_OPERATING_MODE_UNTOUCHED`. -/
def ETHERNET_OPERATING_MODE_UNTOUCHED : Int := 0

/-- Constant `ETHERNET_OPERATING_MODE_HOTSPOT`. -/
def ETHERNET_OPERATING_MODE_HOTSPOT : Int := 1

/-- Constant `ETHERNET_OPERATING_MODE_EXTERNAL_DEVICE`. -/
def ETHERNET_OPERATING_MODE_EXTERNAL_DEVICE : Int := 2

/-- Struct `NetworkingSettings` (two `int` members). -/
structure NetworkingSettings where
  wifi_hotspot_mode : Int
  ethernet_operating_mode : Int
  deriving DecidableEq, Repr

/-- Function `is_valid_wifi_hotspot_mode(int mode)`. -/
def is_valid_wifi_hotspot_mode (mode : Int) : Bool :=
  decide (mode = 0) || decide (mode = 1) || decide (mode = 2)

/-- Class `NetworkingSettingsHolder`: file name and default record as in
networking_settings.h; `impl_deserialize` and `imp_serialize` are only declared
there and are arguments here. -/
def NetworkingSettingsHolder (impl_deserialize : String → Option NetworkingSettings)
    (imp_serialize : NetworkingSettings → String) :
    PersistentSettingsImpl NetworkingSettings :=
  { get_unique_filename := "networking_settings.json",
    create_default := { wifi_hotspot_mode := WIFI_HOTSPOT_AUTO,
                        ethernet_operating_mode := ETHERNET_OPERATING_MODE_UNTOUCHED },
    impl_deserialize := impl_deserialize,
    imp_serialize := imp_serialize }

/-- Class `WifiHotspot` as far as the interface uses it: the enable state last
requested and the value reported by `get_frequency()`. -/
structure WifiHotspot where
  m_is_enabled : Bool
  frequency : Nat
  deriving DecidableEq, Repr

/-- Modelled from the spec: `WifiHotspot::set_enabled_async(enable)`, defined in
wifi_hotspot.cpp, which is not among the sources: the hotspot is asked to take
the given enable state. -/
def WifiHotspot.set_enabled_async (h : WifiHotspot) (enable : Bool) : WifiHotspot :=
  { h with m_is_enabled := enable }

/-- Modelled from the spec: `WifiHotspot::get_frequency()`, defined in
wifi_hotspot.cpp, which is not among the sources. -/
def WifiHotspot.get_frequency (h : WifiHotspot) : Nat := h.frequency % 2 ^ 16

/-- Singleton `ArmingStateHelper`: the member `m_is_armed`. -/
structure ArmingStateHelper where
  m_is_armed : Bool
  deriving DecidableEq, Repr

/-- Member `ArmingStateHelper::is_currently_armed()`. -/
def ArmingStateHelper.is_currently_armed (a : ArmingStateHelper) : Bool := a.m_is_armed

/-- Singleton `LinkActionHandler`: the atomics published for the hotspot. -/
structure LinkActionHandler where
  m_wifi_hotspot_state : Nat
  m_wifi_hotspot_frequency : Nat
  deriving DecidableEq, Repr

/-- Data members of `OHDInterface` read or written by the hotspot settings code,
together with the singletons and the world they act on. -/
structure OHDInterface where
  m_wifi_hotspot : Option WifiHotspot
  m_nw_settings : PersistentSettings NetworkingSettings
  arming_state_helper : ArmingStateHelper
  link_action_handler : LinkActionHandler
  world : World

namespace OHDInterface

/-- Member `OHDInterface::update_wifi_hotspot_enable()`; `none` when
`assert(m_wifi_hotspot)` or the assertion of `get_settings()` fails. -/
def update_wifi_hotspot_enable (o : OHDInterface) : Option OHDInterface :=
  match o.m_wifi_hotspot with
  | none => none
  | some hotspot =>
    match o.m_nw_settings.get_settings with
    | none => none
    | some settings =>
      let enable_wifi_hotspot : Bool :=
        if settings.wifi_hotspot_mode = WIFI_HOTSPOT_AUTO then
          let is_armed := o.arming_state_helper.is_currently_armed
          !is_armed
        else if settings.wifi_hotspot_mode = WIFI_HOTSPOT_ALWAYS_OFF then false
        else if settings.wifi_hotspot_mode = WIFI_HOTSPOT_ALWAYS_ON then true
        else false
      let hotspot1 := hotspot.set_enabled_async enable_wifi_hotspot
      some { o with
        m_wifi_hotspot := some hotspot1,
        link_action_handler :=
          { m_wifi_hotspot_state := if enable_wifi_hotspot then 2 else 1,
            m_wifi_hotspot_frequency := hotspot1.get_frequency } }

/-- The lambda `cb_wifi_hotspot_mode` of `OHDInterface::get_all_settings()`, which
is created when `m_wifi_hotspot != nullptr`. Returns the result of the lambda and
the new state; `none` when an assertion fails. -/
def cb_wifi_hotspot_mode (impl : PersistentSettingsImpl NetworkingSettings)
    (o : OHDInterface) (value : Int) : Option (Bool × OHDInterface) :=
  if !is_valid_wifi_hotspot_mode value then some (false, o)
  else
    match o.m_nw_settings.unsafe_get_settings with
    | none => none
    | some settings =>
      let nw1 : PersistentSettings NetworkingSettings :=
        { o.m_nw_settings with _settings := some { settings with wifi_hotspot_mode := value } }
      match PersistentSettings.persist impl nw1 o.world true with
      | none => none
      | some w1 =>
        match update_wifi_hotspot_enable { o with m_nw_settings := nw1, world := w1 } with
        | none => none
        | some o2 => some (true, o2)

end OHDInterface

/-- A world without directories and files and with an empty trace. -/
def World.empty : World :=
  { fs := { directories := fun _ => false, files := fun _ => none }, trace := [] }

/-! ## Progress records of LinkActionHandler (openhd_action_handler.h) -/

/-- Struct `LinkActionHandler::AnalyzeChannelsResult`; the two arrays of 30
`uint16_t` are lists. -/
structure LinkActionHandler.AnalyzeChannelsResult where
  channels_mhz : List Nat
  foreign_packets : List Nat
  progress : Int
  deriving DecidableEq, Repr

/-- Struct `LinkActionHandler::ScanChannelsProgress`. -/
structure LinkActionHandler.ScanChannelsProgress where
  channel_mhz : Nat
  progress : Nat
  channel_width_mhz : Nat
  success : Bool
  deriving DecidableEq, Repr

/-- The two record buffers of `LinkActionHandler`, `m_scan_results` and
`m_scan_channels_progress`. Each member function below runs under the mutex of
its buffer, hence as one step. -/
structure LinkActionHandler.Buffers where
  m_scan_results : List LinkActionHandler.AnalyzeChannelsResult
  m_scan_channels_progress : List LinkActionHandler.ScanChannelsProgress
  deriving DecidableEq, Repr

namespace LinkActionHandler

/-- Member `add_analyze_result(scan_result)`: `push_back`. -/
def add_analyze_result (b : Buffers) (scan_result : AnalyzeChannelsResult) : Buffers :=
  { b with m_scan_results := b.m_scan_results ++ [scan_result] }

/-- Member `get_analyze_results()`: returns a copy of the buffer and clears it. -/
def get_analyze_results (b : Buffers) : List AnalyzeChannelsResult × Buffers :=
  let ret := b.m_scan_results
  (ret, { b with m_scan_results := [] })

/-- Member `add_scan_channels_progress(val)`: `push_back`. -/
def add_scan_channels_progress (b : Buffers) (val : ScanChannelsProgress) : Buffers :=
  { b with m_scan_channels_progress := b.m_scan_channels_progress ++ [val] }

/-- Member `get_scan_channels_progress()`: returns a copy of the buffer and clears it. -/
def get_scan_channels_progress (b : Buffers) : List ScanChannelsProgress × Buffers :=
  let ret := b.m_scan_channels_progress
  (ret, { b with m_scan_channels_progress := [] })

end LinkActionHandler

/-! ## Default link settings (wb_link_settings.h) -/

/-- Constant `DEFAULT_5GHZ_FREQUENCY`. -/
def DEFAULT_5GHZ_FREQUENCY : Int := 5745

/-- Constant `DEFAULT_2GHZ_FREQUENCY`. -/
def DEFAULT_2GHZ_FREQUENCY : Int := 2452

/-- Constant `DEFAULT_MCS_INDEX`. -/
def DEFAULT_MCS_INDEX : Int := 2

/-- Constant `DEFAULT_CHANNEL_WIDTH`. -/
def DEFAULT_CHANNEL_WIDTH : Int := 20

/-- Constant `DEFAULT_WIFI_TX_POWER_MILLI_WATT`. -/
def DEFAULT_WIFI_TX_POWER_MILLI_WATT : Int := 25

/-- Constant `WIFI_TX_POWER_MILLI_WATT_ARMED_DISABLED`. -/
def WIFI_TX_POWER_MILLI_WATT_ARMED_DISABLED : Int := 0

/-- Constant `DEFAULT_RTL8812AU_TX_POWER_INDEX`. -/
def DEFAULT_RTL8812AU_TX_POWER_INDEX : Int := 0

/-- Constant `RTL8812AU_TX_POWER_INDEX_ARMED_DISABLED`. -/
def RTL8812AU_TX_POWER_INDEX_ARMED_DISABLED : Int := 0

/-- Constant `DEFAULT_ENABLE_LDPC`. -/
def DEFAULT_ENABLE_LDPC : Bool := false

/-- Constant `DEFAULT_ENABLE_SHORT_GUARD`. -/
def DEFAULT_ENABLE_SHORT_GUARD : Bool := false

/-- Constant `WB_VIDEO_FEC_BLOCK_LENGTH_AUTO`. -/
def WB_VIDEO_FEC_BLOCK_LENGTH_AUTO : Int := 0

/-- Constant `DEFAULT_WB_VIDEO_FEC_BLOCK_LENGTH`. -/
def DEFAULT_WB_VIDEO_FEC_BLOCK_LENGTH : Int := WB_VIDEO_FEC_BLOCK_LENGTH_AUTO

/-- Constant `DEFAULT_WB_VIDEO_FEC_PERCENTAGE`. -/
def DEFAULT_WB_VIDEO_FEC_PERCENTAGE : Int := 20

/-- Constant `DEFAULT_MAX_FEC_BLK_SIZE`, the `uint32_t` made from `-1`. -/
def DEFAULT_MAX_FEC_BLK_SIZE : Nat := to_uint32 (-1)

/-- Constant `WB_MCS_INDEX_VIA_RC_CHANNEL_OFF`. -/
def WB_MCS_INDEX_VIA_RC_CHANNEL_OFF : Int := 0

/-- Constant `WB_BW_VIA_RC_CHANNEL_OFF`. -/
def WB_BW_VIA_RC_CHANNEL_OFF : Int := 0

/-- Struct `WBLinkSettings`; `uint32_t` members are naturals, `int` members are
integers. -/
structure WBLinkSettings where
  wb_frequency : Nat
  wb_air_tx_channel_width : Nat
  wb_air_mcs_index : Nat
  wb_enable_stbc : Int
  wb_enable_ldpc : Bool
  wb_enable_short_guard : Bool
  wb_tx_power_milli_watt : Nat
  wb_tx_power_milli_watt_armed : Nat
  wb_rtl8812au_tx_pwr_idx_override : Nat
  wb_rtl8812au_tx_pwr_idx_override_armed : Nat
  wb_video_fec_percentage : Nat
  wb_video_rate_for_mcs_adjustment_percent : Int
  wb_max_fec_block_size : Int
  wb_mcs_index_via_rc_channel : Nat
  wb_bw_via_rc_channel : Int
  enable_wb_video_variable_bitrate : Bool
  wb_qp_max : Int
  wb_qp_min : Int
  wb_enable_listen_only_mode : Bool
  wb_dev_air_set_high_retransmit_count : Bool
  deriving DecidableEq, Repr

/-- A `WBLinkSettings` built from the default member initialisers of the struct;
`wb_frequency` has no initialiser and is an argument. -/
def WBLinkSettings.default_initialised (wb_frequency : Nat) : WBLinkSettings :=
  { wb_frequency := wb_frequency,
    wb_air_tx_channel_width := to_uint32 DEFAULT_CHANNEL_WIDTH,
    wb_air_mcs_index := to_uint32 DEFAULT_MCS_INDEX,
    wb_enable_stbc := 0,
    wb_enable_ldpc := DEFAULT_ENABLE_LDPC,
    wb_enable_short_guard := DEFAULT_ENABLE_SHORT_GUARD,
    wb_tx_power_milli_watt := to_uint32 DEFAULT_WIFI_TX_POWER_MILLI_WATT,
    wb_tx_power_milli_watt_armed := to_uint32 WIFI_TX_POWER_MILLI_WATT_ARMED_DISABLED,
    wb_rtl8812au_tx_pwr_idx_override := to_uint32 DEFAULT_RTL8812AU_TX_POWER_INDEX,
    wb_rtl8812au_tx_pwr_idx_override_armed :=
      to_uint32 RTL8812AU_TX_POWER_INDEX_ARMED_DISABLED,
    wb_video_fec_percentage := to_uint32 DEFAULT_WB_VIDEO_FEC_PERCENTAGE,
    wb_video_rate_for_mcs_adjustment_percent := 100,
    wb_max_fec_block_size := wrap_int32 DEFAULT_MAX_FEC_BLK_SIZE,
    wb_mcs_index_via_rc_channel := to_uint32 WB_MCS_INDEX_VIA_RC_CHANNEL_OFF,
    wb_bw_via_rc_channel := WB_BW_VIA_RC_CHANNEL_OFF,
    enable_wb_video_variable_bitrate := true,
    wb_qp_max := 17,
    wb_qp_min := 42,
    wb_enable_listen_only_mode := false,
    wb_dev_air_set_high_retransmit_count := false }

/-- Function `validate_wb_rtl8812au_tx_pwr_idx_override(int value)` (the warning
log is left out). -/
def validate_wb_rtl8812au_tx_pwr_idx_override (value : Int) : Bool :=
  if value ≥ 0 ∧ value ≤ 63 then true else false

/-- Function `is_valid_fec_block_length(int block_length)`. -/
def is_valid_fec_block_length (block_length : Int) : Bool :=
  decide (block_length ≥ 0) && decide (block_length < 100)

/-! ## Platform identifiers (openhd_platform.h) -/

/-- Constant `X_PLATFORM_TYPE_UNKNOWN`. -/
def X_PLATFORM_TYPE_UNKNOWN : Int := 0

/-- Constant `X_PLATFORM_TYPE_X86`. -/
def X_PLATFORM_TYPE_X86 : Int := 1

/-- Constant `X_PLATFORM_TYPE_RPI_OLD`. -/
def X_PLATFORM_TYPE_RPI_OLD : Int := 10

/-- Constant `X_PLATFORM_TYPE_RPI_4`. -/
def X_PLATFORM_TYPE_RPI_4 : Int := 11

/-- Constant `X_PLATFORM_TYPE_RPI_CM4`. -/
def X_PLATFORM_TYPE_RPI_CM4 : Int := 12

/-- Constant `X_PLATFORM_TYPE_RPI_5`. -/
def X_PLATFORM_TYPE_RPI_5 : Int := 12

/-- Constant `X_PLATFORM_TYPE_ROCKCHIP_RK3566_RADXA_ZERO3W`. -/
def X_PLATFORM_TYPE_ROCKCHIP_RK3566_RADXA_ZERO3W : Int := 20

/-- Constant `X_PLATFORM_TYPE_ROCKCHIP_RK3588_RADXA_ROCK5_A`. -/
def X_PLATFORM_TYPE_ROCKCHIP_RK3588_RADXA_ROCK5_A : Int := 21

/-- Constant `X_PLATFORM_TYPE_ROCKCHIP_RK3588_RADXA_ROCK5_B`. -/
def X_PLATFORM_TYPE_ROCKCHIP_RK3588_RADXA_ROCK5_B : Int := 22

/-- Constant `X_PLATFORM_TYPE_ROCKCHIP_RK3566_RADXA_CM3`. -/
def X_PLATFORM_TYPE_ROCKCHIP_RK3566_RADXA_CM3 : Int := 24

/-- Constant `X_PLATFORM_TYPE_ROCKCHIP_RV1126_UNDEFINED`. -/
def X_PLATFORM_TYPE_ROCKCHIP_RV1126_UNDEFINED : Int := 23

/-- Constant `X_PLATFORM_TYPE_ALWINNER_X20`. -/
def X_PLATFORM_TYPE_ALWINNER_X20 : Int := 30

/-- Constant `X_PLATFORM_TYPE_OPENIPC_SIGMASTAR_UNDEFINED`. -/
def X_PLATFORM_TYPE_OPENIPC_SIGMASTAR_UNDEFINED : Int := 36

/-- Constant `X_PLATFORM_TYPE_NVIDIA_XAVIER`. -/
def X_PLATFORM_TYPE_NVIDIA_XAVIER : Int := 40

/-- Constant `X_PLATFORM_TYPE_QUALCOMM_QRB5165`. -/
def X_PLATFORM_TYPE_QUALCOMM_QRB5165 : Int := 46

/-- Constant `X_PLATFORM_TYPE_QUALCOMM_QCS405`. -/
def X_PLATFORM_TYPE_QUALCOMM_QCS405 : Int := 47

/-- Constant `X_PLATFORM_TYPE_QUALCOMM_UNKNOWN`. -/
def X_PLATFORM_TYPE_QUALCOMM_UNKNOWN : Int := 48

/-- All platform identifiers of openhd_platform.h with their names, in the order
of declaration. -/
def X_PLATFORM_TYPES : List (String × Int) :=
  [("UNKNOWN", X_PLATFORM_TYPE_UNKNOWN), ("X86", X_PLATFORM_TYPE_X86),
   ("RPI_OLD", X_PLATFORM_TYPE_RPI_OLD), ("RPI_4", X_PLATFORM_TYPE_RPI_4),
   ("RPI_CM4", X_PLATFORM_TYPE_RPI_CM4), ("RPI_5", X_PLATFORM_TYPE_RPI_5),
   ("ROCKCHIP_RK3566_RADXA_ZERO3W", X_PLATFORM_TYPE_ROCKCHIP_RK3566_RADXA_ZERO3W),
   ("ROCKCHIP_RK3588_RADXA_ROCK5_A", X_PLATFORM_TYPE_ROCKCHIP_RK3588_RADXA_ROCK5_A),
   ("ROCKCHIP_RK3588_RADXA_ROCK5_B", X_PLATFORM_TYPE_ROCKCHIP_RK3588_RADXA_ROCK5_B),
   ("ROCKCHIP_RK3566_RADXA_CM3", X_PLATFORM_TYPE_ROCKCHIP_RK3566_RADXA_CM3),
   ("ROCKCHIP_RV1126_UNDEFINED", X_PLATFORM_TYPE_ROCKCHIP_RV1126_UNDEFINED),
   ("ALWINNER_X20", X_PLATFORM_TYPE_ALWINNER_X20),
   ("OPENIPC_SIGMASTAR_UNDEFINED", X_PLATFORM_TYPE_OPENIPC_SIGMASTAR_UNDEFINED),
   ("NVIDIA_XAVIER", X_PLATFORM_TYPE_NVIDIA_XAVIER),
   ("QUALCOMM_QRB5165", X_PLATFORM_TYPE_QUALCOMM_QRB5165),
   ("QUALCOMM_QCS405", X_PLATFORM_TYPE_QUALCOMM_QCS405),
   ("QUALCOMM_UNKNOWN", X_PLATFORM_TYPE_QUALCOMM_UNKNOWN)]

/-! ## Call sequences on FrameDropsHelper with their clock readings -/

namespace wb.FrameDropsHelper

/-- A call on the helper together with the clock readings it makes:
`notify_dropped_frame(n)` reads no clock, `delay_for(delay)` reads it once,
`needs_bitrate_reduction()` when it decides and when it stores. -/
inductive Op where
  | notify (n_dropped : Int)
  | delay (now : Int) (delay_ms : Int)
  | check (now stamp : Int)
  deriving DecidableEq, Repr

/-- Runs a sequence of calls; the log holds, for every `needs_bitrate_reduction`
call in order, the clock reading at which it decided and its result. -/
def run_ops (s : FrameDropsHelper) : List Op → List (Int × Bool)
  | [] => []
  | Op.notify n :: ops => run_ops (notify_dropped_frame s n) ops
  | Op.delay now d :: ops => run_ops (delay_for s now d) ops
  | Op.check now stamp :: ops =>
    (now, (needs_bitrate_reduction s now stamp).1)
      :: run_ops (needs_bitrate_reduction s now stamp).2 ops

/-- The clock readings of a sequence of calls are non-decreasing and start at or
after `lo`. -/
def non_decreasing_clock (lo : Int) : List Op → Prop
  | [] => True
  | Op.notify _ :: ops => non_decreasing_clock lo ops
  | Op.delay now _ :: ops => lo ≤ now ∧ non_decreasing_clock now ops
  | Op.check now stamp :: ops => lo ≤ now ∧ now ≤ stamp ∧ non_decreasing_clock stamp ops

end wb.FrameDropsHelper

/-! ## Ethernet setting and link selection (ohd_interface.cpp) -/

namespace OHDInterface

/-- The lambda `cb_ethernet` of `OHDInterface::get_all_settings()`, which is
created when `m_profile.is_ground()`. Returns the result of the lambda and the
new state; `none` when the assertion of `unsafe_get_settings()` fails. -/
def cb_ethernet (impl : PersistentSettingsImpl NetworkingSettings)
    (o : OHDInterface) (value : Int) : Option (Bool × OHDInterface) :=
  match o.m_nw_settings.unsafe_get_settings with
  | none => none
  | some settings =>
    let nw1 : PersistentSettings NetworkingSettings :=
      { o.m_nw_settings with
        _settings := some { settings with ethernet_operating_mode := value } }
    match PersistentSettings.persist impl nw1 o.world true with
    | none => none
    | some w1 => some (true, { o with m_nw_settings := nw1, world := w1 })

/-- A call of one of the two change callbacks with the requested value. -/
inductive SettingCall where
  | WIFI_HOTSPOT_E (value : Int)
  | ETHERNET (value : Int)
  deriving DecidableEq, Repr

/-- Runs a sequence of change callback calls; `none` when an assertion fails. -/
def run_setting_calls (impl : PersistentSettingsImpl NetworkingSettings) :
    OHDInterface → List SettingCall → Option OHDInterface
  | o, [] => some o
  | o, SettingCall.WIFI_HOTSPOT_E v :: cs =>
    match cb_wifi_hotspot_mode impl o v with
    | none => none
    | some r => run_setting_calls impl r.2 cs
  | o, SettingCall.ETHERNET v :: cs =>
    match cb_ethernet impl o v with
    | none => none
    | some r => run_setting_calls impl r.2 cs

end OHDInterface

/-- Class `EthernetLink`, as the target of a link handle. -/
structure EthernetLink where
  deriving DecidableEq, Repr

/-- Class `MicrohardLink`, as the target of a link handle. -/
structure MicrohardLink where
  deriving DecidableEq, Repr

/-- Class `WBLink`, as the target of a link handle, with the cards it was made for. -/
structure WBLink where
  m_broadcast_cards : List wb.WiFiCard
  deriving DecidableEq, Repr

/-- A non-null `std::shared_ptr<OHDLink>`: the backend it points to. -/
inductive OHDLink where
  | ethernet (link : EthernetLink)
  | wifibroadcast (link : WBLink)
  | microhard (link : MicrohardLink)
  deriving DecidableEq, Repr

/-- What the constructor of `OHDInterface` finds in its environment: whether
wfb.txt and ethernet.txt exist in the config directory, whether the output of
`lsusb` contains "Microhard", and the monitor mode cards that
`DWifiCards::main_discover_an_process_wifi_cards` (not among the sources) yields. -/
structure Probes where
  wfb_txt_exists : Bool
  ethernet_txt_exists : Bool
  lsusb_lists_microhard : Bool
  discovered_monitor_mode_cards : List wb.WiFiCard
  deriving DecidableEq, Repr

/-- Function `is_microhard_device_present()`. -/
def is_microhard_device_present (p : Probes) : Bool :=
  if !p.wfb_txt_exists && !p.ethernet_txt_exists then p.lsusb_lists_microhard
  else false

/-- The link handles of `OHDInterface` and the monitor mode cards. -/
structure OHDInterface.Links where
  m_ethernet_link : Option EthernetLink
  m_microhard_link : Option MicrohardLink
  m_wb_link : Option WBLink
  m_monitor_mode_cards : List wb.WiFiCard
  deriving DecidableEq, Repr

/-- Constructor `OHDInterface::OHDInterface(profile)` as far as it creates link
handles: the two early returns and the WifiBroadcast link for a non-empty list
of monitor mode cards. -/
def OHDInterface.construct_links (p : Probes) : OHDInterface.Links :=
  let microhard_device_present := is_microhard_device_present p
  if p.ethernet_txt_exists then
    { m_ethernet_link := some {}, m_microhard_link := none, m_wb_link := none,
      m_monitor_mode_cards := [] }
  else if microhard_device_present then
    { m_ethernet_link := none, m_microhard_link := some {}, m_wb_link := none,
      m_monitor_mode_cards := [] }
  else
    let m_monitor_mode_cards := p.discovered_monitor_mode_cards
    if m_monitor_mode_cards.isEmpty then
      { m_ethernet_link := none, m_microhard_link := none, m_wb_link := none,
        m_monitor_mode_cards := m_monitor_mode_cards }
    else
      { m_ethernet_link := none, m_microhard_link := none,
        m_wb_link := some { m_broadcast_cards := m_monitor_mode_cards },
        m_monitor_mode_cards := m_monitor_mode_cards }

/-- Member `OHDInterface::get_link_handle()`; `none` is the null handle. -/
def OHDInterface.get_link_handle (l : OHDInterface.Links) : Option OHDLink :=
  match l.m_ethernet_link with
  | some e => some (OHDLink.ethernet e)
  | none =>
    match l.m_wb_link with
    | some w => some (OHDLink.wifibroadcast w)
    | none =>
      match l.m_microhard_link with
      | some m => some (OHDLink.microhard m)
      | none => none

/-- Number of link handles that are not null. -/
def OHDInterface.Links.count_non_null (l : OHDInterface.Links) : Nat :=
  (if l.m_ethernet_link.isSome then 1 else 0)
    + (if l.m_microhard_link.isSome then 1 else 0)
    + (if l.m_wb_link.isSome then 1 else 0)

end openhd

open openhd openhd.wb openhd.wb.FrameDropsHelper

theorem notify_times_counter (k : Nat) :
    ∀ s : FrameDropsHelper, s.m_frame_drop_counter + k < 2 ^ 31 →
      0 ≤ s.m_frame_drop_counter →
      (notify_times s k).m_frame_drop_counter = s.m_frame_drop_counter + k ∧
      (notify_times s k).m_last_check = s.m_last_check ∧
      (notify_times s k).m_opt_no_error_delay = s.m_opt_no_error_delay := by
  induction k with
  | zero => intro s _ _; simp [notify_times]
  | succ n ih =>
    intro s h h0
    have hw : wrap_int32 (s.m_frame_drop_counter + 1) = s.m_frame_drop_counter + 1 := by
      unfold wrap_int32; push_cast at h; omega
    have := ih (notify_dropped_frame s 1) (by
      simp only [notify_dropped_frame, hw]; push_cast at h ⊢; omega) (by
      simp only [notify_dropped_frame, hw]; omega)
    simp only [notify_times]
    simp only [notify_dropped_frame, hw] at this ⊢
    push_cast
    refine ⟨by omega, this.2.1, this.2.2⟩

/-- C1: with no grace delay active, a check made at least 3 seconds after the
last check returns true exactly when the drop counter exceeds 3; the counter is
0 afterwards and a directly following check returns false. Counting from a
reset counter, `k` default notifications give true exactly when `k > 3`. -/
theorem C1_needs_bitrate_reduction_after_window
    (s : FrameDropsHelper) (now stamp now2 stamp2 : Int)
    (hdelay : s.m_opt_no_error_delay = none)
    (helapsed : now - s.m_last_check ≥ seconds 3) :
    ((needs_bitrate_reduction s now stamp).1 = true ↔ s.m_frame_drop_counter > 3) ∧
    (needs_bitrate_reduction s now stamp).2.m_frame_drop_counter = 0 ∧
    (needs_bitrate_reduction s now stamp).2.m_last_check = stamp ∧
    (needs_bitrate_reduction s now stamp).2.m_opt_no_error_delay = none ∧
    (needs_bitrate_reduction (needs_bitrate_reduction s now stamp).2 now2 stamp2).1 = false ∧
    (∀ k : Nat, k < 2 ^ 31 → s.m_frame_drop_counter = 0 →
      ((needs_bitrate_reduction (notify_times s k) now stamp).1 = true ↔ k > 3)) := by
  have hstep : ∀ t : FrameDropsHelper, t.m_opt_no_error_delay = none →
      now - t.m_last_check ≥ seconds 3 →
      needs_bitrate_reduction t now stamp =
        (decide (t.m_frame_drop_counter > 3),
          { t with m_last_check := stamp, m_frame_drop_counter := 0 }) := by
    intro t ht he
    unfold needs_bitrate_reduction
    rw [ht]
    simp only [he, if_true, MAX_DROPPED_FRAMES_ALLOWED]
    by_cases hc : t.m_frame_drop_counter > 3 <;> simp [hc]
  rw [hstep s hdelay helapsed]
  refine ⟨by simp, rfl, rfl, hdelay, ?_, ?_⟩
  · unfold needs_bitrate_reduction
    simp only [hdelay, MAX_DROPPED_FRAMES_ALLOWED]
    split_ifs <;> simp_all
  · intro k hk h0
    obtain ⟨hc, hl, hd⟩ := notify_times_counter k s (by rw [h0]; simpa using hk) (by omega)
    rw [hstep _ (by rw [hd, hdelay]) (by rw [hl]; exact helapsed)]
    simp only [decide_eq_true_eq, hc, h0]
    omega

/-- Witness for C1: four drops in a window of exactly three seconds. -/
theorem C1_needs_bitrate_reduction_after_window_witness :
    (needs_bitrate_reduction (notify_times (init 0) 4) 3000000000 3000000000).1 = true ∧
    (needs_bitrate_reduction (notify_times (init 0) 3) 3000000000 3000000000).1 = false := by
  have h := C1_needs_bitrate_reduction_after_window (init 0) 3000000000 3000000000
    3000000000 3000000000 rfl (by decide)
  refine ⟨(h.2.2.2.2.2 4 (by norm_num) rfl).2 (by norm_num), ?_⟩
  have h3 := (h.2.2.2.2.2 3 (by norm_num) rfl)
  cases hb : (needs_bitrate_reduction (notify_times (init 0) 3) 3000000000 3000000000).1
  · rfl
  · exact absurd (h3.1 hb) (by norm_num)

theorem run_during_delay (until_ : Int) (cs : List Call) :
    ∀ s : FrameDropsHelper, s.m_opt_no_error_delay = some until_ →
      (∀ c ∈ cs, ∃ lo, Call.within lo until_ c) →
      ∀ b ∈ (run s cs).1, b = false := by
  induction cs with
  | nil => intro s _ _ b hb; simp [run] at hb
  | cons c cs ih =>
    intro s hs hc b hb
    have hrest : ∀ c ∈ cs, ∃ lo, Call.within lo until_ c :=
      fun c hm => hc c (List.mem_cons_of_mem _ hm)
    cases c with
    | notify n =>
      simp only [run] at hb
      exact ih (notify_dropped_frame s n) (by simpa [notify_dropped_frame] using hs) hrest b hb
    | check now stamp =>
      obtain ⟨lo, -, hlt⟩ := hc (Call.check now stamp) (List.mem_cons_self _ _)
      have hstep : needs_bitrate_reduction s now stamp = (false, s) := by
        unfold needs_bitrate_reduction
        rw [hs]
        simp only [ge_iff_le, not_le.mpr hlt, if_false]
      simp only [run, hstep, List.mem_cons] at hb
      rcases hb with hb | hb
      · exact hb
      · exact ih s hs hrest b hb

/-- C2: after `delay_for(d)` at time `t0`, every check whose clock reading lies in
`[t0, t0 + d)` returns false, whatever notifications are interleaved. -/
theorem C2_no_reduction_during_delay
    (s : FrameDropsHelper) (t0 d : Int) (cs : List Call)
    (hcs : ∀ c ∈ cs, Call.within t0 (t0 + milliseconds d) c) :
    ∀ b ∈ (run (delay_for s t0 d) cs).1, b = false :=
  run_during_delay (t0 + milliseconds d) cs (delay_for s t0 d) rfl
    (fun c hc => ⟨t0, hcs c hc⟩)

/-- Witness for C2: a delay of 2 s right after a true result absorbs 150 drops. -/
theorem C2_no_reduction_during_delay_witness :
    (needs_bitrate_reduction (notify_times (init 0) 4) 3000000000 3000000000).1 = true ∧
    ∀ b ∈ (run (delay_for
        (needs_bitrate_reduction (notify_times (init 0) 4) 3000000000 3000000000).2
        3000000000 2000)
      [Call.notify 100, Call.check 3000000000 3000000000, Call.notify 50,
        Call.check 4999999999 4999999999]).1, b = false :=
  ⟨by decide, C2_no_reduction_during_delay _ 3000000000 2000 _ (by
    intro c hc
    simp only [List.mem_cons, List.mem_singleton, List.not_mem_nil, or_false] at hc
    rcases hc with rfl | rfl | rfl | rfl <;> simp [Call.within, milliseconds])⟩

/-- C3: the first check at or after the end of a grace period returns false and
leaves the state (stamp, counter 0, no delay), whatever was counted before; the
checks after it follow the 3 second / more than 3 drops rule. -/
theorem C3_grace_end_flushes_counter
    (s : FrameDropsHelper) (until_ now stamp : Int)
    (hdelay : s.m_opt_no_error_delay = some until_) (hnow : now ≥ until_) :
    needs_bitrate_reduction s now stamp =
      (false, { m_last_check := stamp, m_frame_drop_counter := 0,
                m_opt_no_error_delay := none }) ∧
    ∀ (k : Nat) (now2 stamp2 : Int), k < 2 ^ 31 →
      ((needs_bitrate_reduction
          (notify_times (needs_bitrate_reduction s now stamp).2 k) now2 stamp2).1 = true
        ↔ now2 - stamp ≥ seconds 3 ∧ k > 3) := by
  have h1 : needs_bitrate_reduction s now stamp =
      (false, { m_last_check := stamp, m_frame_drop_counter := 0,
                m_opt_no_error_delay := none }) := by
    unfold needs_bitrate_reduction
    rw [hdelay]
    simp only [hnow, if_true]
  refine ⟨h1, ?_⟩
  intro k now2 stamp2 hk
  rw [h1]
  obtain ⟨hc, hl, hd⟩ := notify_times_counter k
    { m_last_check := stamp, m_frame_drop_counter := 0, m_opt_no_error_delay := none }
    (by simpa using hk) (by simp)
  simp only at hc hl hd
  unfold needs_bitrate_reduction
  rw [hd]
  simp only [hl, hc, MAX_DROPPED_FRAMES_ALLOWED]
  split_ifs with ha hb
  · simp only [true_iff]; exact ⟨ha, by omega⟩
  · simp only [false_iff, Bool.false_eq_true]; intro h; omega
  · simp only [false_iff, Bool.false_eq_true]; intro h; exact ha h.1

/-- Witness for C3: 1000 drops during a grace period ending at 5 s are flushed by
the check at 5 s. -/
theorem C3_grace_end_flushes_counter_witness :
    needs_bitrate_reduction
        (notify_times (delay_for (init 0) 3000000000 2000) 1000) 5000000000 5000000000 =
      (false, { m_last_check := 5000000000, m_frame_drop_counter := 0,
                m_opt_no_error_delay := none }) :=
  (C3_grace_end_flushes_counter
    (notify_times (delay_for (init 0) 3000000000 2000) 1000) 5000000000 5000000000
    5000000000
    ((notify_times_counter 1000 (delay_for (init 0) 3000000000 2000)
      (by norm_num [delay_for, init]) (by norm_num [delay_for, init])).2.2)
    (by decide)).1

theorem try_schedule_work_item_empty (w : WorkItem) :
    try_schedule_work_item [] w = (true, [w]) := rfl

theorem try_schedule_work_item_busy (p : WorkItem) (ps : List WorkItem) (w : WorkItem) :
    try_schedule_work_item (p :: ps) w = (false, p :: ps) := rfl

theorem queueReachable_length (q : List WorkItem) (h : QueueReachable q) : q.length ≤ 1 := by
  induction h with
  | start => simp
  | schedule q w _ ih =>
    cases q with
    | nil => simp [try_schedule_work_item_empty]
    | cons p ps => simpa [try_schedule_work_item_busy] using ih
  | work q now _ ih =>
    cases q with
    | nil => simp [wt_execute_pending]
    | cons p ps =>
      simp only [wt_execute_pending]
      split_ifs
      · simp only [List.length_cons] at ih; omega
      · exact ih

/-- C4: admission succeeds exactly on an empty queue and then enqueues the item;
otherwise the queue is unchanged. Every reachable queue holds at most one item,
and once the worker has executed the pending item a new request is accepted. -/
theorem C4_single_slot_admission :
    (∀ (q : List WorkItem) (w : WorkItem),
      ((try_schedule_work_item q w).1 = true ↔ q = []) ∧
      (q = [] → (try_schedule_work_item q w).2 = [w]) ∧
      (q ≠ [] → (try_schedule_work_item q w).2 = q)) ∧
    (∀ q : List WorkItem, QueueReachable q → q.length ≤ 1) ∧
    (∀ (w w2 : WorkItem) (now : Int), w.ready_to_be_executed now = true →
      wt_execute_pending (try_schedule_work_item [] w).2 now = [] ∧
      try_schedule_work_item (wt_execute_pending (try_schedule_work_item [] w).2 now) w2
        = (true, [w2])) := by
  refine ⟨?_, queueReachable_length, ?_⟩
  · intro q w
    cases q with
    | nil => simp [try_schedule_work_item_empty]
    | cons p ps => simp [try_schedule_work_item_busy]
  · intro w w2 now hr
    simp [try_schedule_work_item_empty, wt_execute_pending, hr]

/-- Witness for C4: a second request is rejected while the first is pending and
a third is accepted after the worker ran the first. -/
theorem C4_single_slot_admission_witness :
    (try_schedule_work_item [⟨"SET_FREQ", 0⟩] ⟨"SET_MCS", 0⟩).2 = [⟨"SET_FREQ", 0⟩] ∧
    [(⟨"SET_FREQ", 0⟩ : WorkItem)].length ≤ 1 ∧
    try_schedule_work_item
        (wt_execute_pending (try_schedule_work_item [] ⟨"SET_FREQ", 0⟩).2 5) ⟨"SET_MCS", 0⟩
      = (true, [⟨"SET_MCS", 0⟩]) :=
  ⟨(C4_single_slot_admission.1 [⟨"SET_FREQ", 0⟩] ⟨"SET_MCS", 0⟩).2.2 (by simp),
   C4_single_slot_admission.2.1 [⟨"SET_FREQ", 0⟩]
     (QueueReachable.schedule [] ⟨"SET_FREQ", 0⟩ QueueReachable.start),
   (C4_single_slot_admission.2.2 ⟨"SET_FREQ", 0⟩ ⟨"SET_MCS", 0⟩ 5 (by decide)).2⟩

/-- C5: the 5 GHz table gives 20600 kbit/s for MCS 2 at 40 MHz. -/
theorem C5_rate_5G_mcs2_40mhz :
    rtl8812au_get_max_rate_5G_kbits_bw 2 true = 20600 ∧ 26600 - 6000 = 20600 := by
  decide

theorem round_half_even_floor_le (y : ℚ) : ⌊y⌋ ≤ round_half_even y := by
  unfold round_half_even
  simp only
  split_ifs <;> omega

theorem round_half_even_int (z : Int) : round_half_even (z : ℚ) = z := by
  unfold round_half_even
  simp

theorem int_le_round_half_even (z : Int) (y : ℚ) (h : (z : ℚ) ≤ y) :
    z ≤ round_half_even y :=
  le_trans (Int.le_floor.mpr h) (round_half_even_floor_le y)

theorem round_half_even_le_int (z : Int) (y : ℚ) (h : y ≤ (z : ℚ)) :
    round_half_even y ≤ z := by
  rcases eq_or_lt_of_le h with h | h
  · rw [h, round_half_even_int]
  · have hf : ⌊y⌋ < z := Int.floor_lt.mpr h
    unfold round_half_even
    simp only
    split_ifs <;> omega

/-- A dyadic number `m * 2 ^ t` on the grid of `x` divided by the grid step is an integer. -/
theorem dyadic_div_grid (m t e : Int) (h : e ≤ t) :
    (m : ℚ) * 2 ^ t / 2 ^ e = ((m * 2 ^ (t - e).toNat : Int) : ℚ) := by
  have h2 : (2 : ℚ) ≠ 0 := by norm_num
  have ht : t = (t - e).toNat + e := by omega
  push_cast
  rw [mul_div_assoc]
  congr 1
  rw [div_eq_iff (zpow_ne_zero _ h2)]
  conv_lhs => rw [ht]
  rw [zpow_add₀ h2, zpow_natCast]

theorem round_to_double_le (x : ℚ) (m t : Int) (ht : double_exponent x ≤ t)
    (h : x ≤ (m : ℚ) * 2 ^ t) : round_to_double x ≤ (m : ℚ) * 2 ^ t := by
  unfold round_to_double
  split_ifs with h0
  · rw [h0] at h; exact h
  · have hpos : (0 : ℚ) < 2 ^ double_exponent x := zpow_pos (by norm_num) _
    have hd := dyadic_div_grid m t _ ht
    have h1 : x / 2 ^ double_exponent x ≤ ((m * 2 ^ (t - double_exponent x).toNat : Int) : ℚ) := by
      rw [← hd]; exact div_le_div_of_nonneg_right h hpos.le
    have h2 := round_half_even_le_int _ _ h1
    have h3 : (round_half_even (x / 2 ^ double_exponent x) : ℚ)
        ≤ ((m * 2 ^ (t - double_exponent x).toNat : Int) : ℚ) := by exact_mod_cast h2
    calc (round_half_even (x / 2 ^ double_exponent x) : ℚ) * 2 ^ double_exponent x
        ≤ ((m * 2 ^ (t - double_exponent x).toNat : Int) : ℚ) * 2 ^ double_exponent x :=
          mul_le_mul_of_nonneg_right h3 hpos.le
      _ = (m : ℚ) * 2 ^ t := by rw [← hd, div_mul_cancel₀ _ hpos.ne']

theorem le_round_to_double (x : ℚ) (m t : Int) (ht : double_exponent x ≤ t)
    (h : (m : ℚ) * 2 ^ t ≤ x) : (m : ℚ) * 2 ^ t ≤ round_to_double x := by
  unfold round_to_double
  split_ifs with h0
  · rw [h0] at h; exact h
  · have hpos : (0 : ℚ) < 2 ^ double_exponent x := zpow_pos (by norm_num) _
    have hd := dyadic_div_grid m t _ ht
    have h1 : ((m * 2 ^ (t - double_exponent x).toNat : Int) : ℚ) ≤ x / 2 ^ double_exponent x := by
      rw [← hd]; exact div_le_div_of_nonneg_right h hpos.le
    have h2 := int_le_round_half_even _ _ h1
    have h3 : ((m * 2 ^ (t - double_exponent x).toNat : Int) : ℚ)
        ≤ (round_half_even (x / 2 ^ double_exponent x) : ℚ) := by exact_mod_cast h2
    calc (m : ℚ) * 2 ^ t
        = ((m * 2 ^ (t - double_exponent x).toNat : Int) : ℚ) * 2 ^ double_exponent x := by
          rw [← hd, div_mul_cancel₀ _ hpos.ne']
      _ ≤ (round_half_even (x / 2 ^ double_exponent x) : ℚ) * 2 ^ double_exponent x :=
          mul_le_mul_of_nonneg_right h3 hpos.le

/-- Below `2 ^ (j + 53)` the binary64 grid is at least as fine as `2 ^ j`. -/
theorem double_exponent_le (x : ℚ) (j : Int) (hj : -52 ≤ j)
    (h : |x| < 2 ^ (j + 53)) : double_exponent x ≤ j := by
  unfold double_exponent
  apply max_le _ (by omega)
  rcases eq_or_lt_of_le (abs_nonneg x) with h0 | h0
  · rw [← h0, Int.log_zero_right]; omega
  · have := (Int.lt_zpow_iff_log_lt (b := 2) (by norm_num) h0).mp (by exact_mod_cast h)
    omega

theorem round_to_double_int (n : Int) (h : |n| < 2 ^ 53) : round_to_double (n : ℚ) = n := by
  have he : double_exponent (n : ℚ) ≤ 0 := by
    apply double_exponent_le _ 0 (by norm_num)
    rw [show (0 : ℤ) + 53 = ((53 : ℕ) : ℤ) by norm_num, zpow_natCast]
    exact_mod_cast h
  have h1 := round_to_double_le (n : ℚ) n 0 he (by simp)
  have h2 := le_round_to_double (n : ℚ) n 0 he (by simp)
  simp only [zpow_zero, mul_one] at h1 h2
  exact le_antisymm h1 h2

theorem roundl_of_nonneg (x : ℚ) (K : Int) (h0 : 0 ≤ x) (hlo : (K : ℚ) - 1 / 2 ≤ x)
    (hhi : x < (K : ℚ) + 1 / 2) : roundl x = K := by
  unfold roundl
  rw [if_pos h0, Int.floor_eq_iff]
  constructor <;> linarith

/-- A fraction `n / d` with `0 < d ≤ 512` strictly below the half integer `K + 1/2`
stays at least `1 / 1024` below it. -/
theorem frac_gap_below_half (n d K : Int) (hd : 0 < d) (hd2 : d ≤ 512)
    (h : (n : ℚ) / d < (K : ℚ) + 1 / 2) :
    (n : ℚ) / d ≤ ((1024 * K + 511 : Int) : ℚ) * 2 ^ (-10 : Int) := by
  have hdq : (0 : ℚ) < d := by exact_mod_cast hd
  rw [div_lt_iff₀ hdq] at h
  have h1 : (2 * n : ℚ) < (2 * K + 1) * d := by linarith
  have h2 : 2 * n < (2 * K + 1) * d := by exact_mod_cast h1
  have h3 : 2 * n + 1 ≤ (2 * K + 1) * d := h2
  have h4 : (2 * n + 1 : ℚ) ≤ (2 * K + 1) * d := by exact_mod_cast h3
  rw [div_le_iff₀ hdq]
  have hd3 : (d : ℚ) ≤ 512 := by exact_mod_cast hd2
  have hz : (2 : ℚ) ^ (-10 : Int) = 1 / 1024 := by norm_num [zpow_neg]
  rw [hz]
  push_cast
  nlinarith

theorem deduce_fec_overhead_floor (b p : Int) (hb0 : 0 ≤ b) (hb1 : b < 2 ^ 31)
    (hp0 : 1 ≤ p) (hp1 : p ≤ 400) :
    deduce_fec_overhead b p = some ⌊(b : ℚ) * 100 / (100 + p) + 1 / 2⌋ := by
  have hnum : round_to_double ((b : ℚ) * 100) = ((b * 100 : Int) : ℚ) := by
    have := round_to_double_int (b * 100) (by rw [abs_of_nonneg (by omega)]; omega)
    rw [← this]; push_cast; rfl
  have hden : round_to_double (100 + (p : ℚ)) = ((100 + p : Int) : ℚ) := by
    have := round_to_double_int (100 + p) (by rw [abs_of_nonneg (by omega)]; omega)
    rw [← this]; push_cast; rfl
  have hdpos : (0 : ℚ) < ((100 + p : Int) : ℚ) := by exact_mod_cast (by omega : 0 < 100 + p)
  set q : ℚ := ((b * 100 : Int) : ℚ) / ((100 + p : Int) : ℚ) with hq
  set K : Int := ⌊q + 1 / 2⌋ with hK
  have hq0 : 0 ≤ q := div_nonneg (by exact_mod_cast (by omega : 0 ≤ b * 100)) hdpos.le
  have hqb : q ≤ b := by
    rw [hq, div_le_iff₀ hdpos]
    have h1 : (0 : ℚ) ≤ b := by exact_mod_cast hb0
    have h2 : (1 : ℚ) ≤ p := by exact_mod_cast hp0
    push_cast
    nlinarith
  have hKlo : (K : ℚ) ≤ q + 1 / 2 := Int.floor_le _
  have hKhi : q + 1 / 2 < K + 1 := Int.lt_floor_add_one _
  have hK0 : 0 ≤ K := Int.floor_nonneg.mpr (by linarith)
  have hKb : K ≤ b := by
    have : (K : ℚ) < b + 1 := by linarith
    have : K < b + 1 := by exact_mod_cast this
    omega
  have hexp : double_exponent q ≤ -10 := by
    apply double_exponent_le _ _ (by norm_num)
    rw [abs_of_nonneg hq0]
    have h1 : (b : ℚ) < 2 ^ 31 := by exact_mod_cast hb1
    have h2 : (2 : ℚ) ^ ((-10 : Int) + 53) = 2 ^ 43 := by norm_num
    rw [h2]
    calc q ≤ b := hqb
      _ < 2 ^ 31 := h1
      _ ≤ 2 ^ 43 := by norm_num
  have hhalf : (2 : ℚ) ^ (-1 : Int) = 1 / 2 := by norm_num [zpow_neg]
  have hz : (2 : ℚ) ^ (-10 : Int) = 1 / 1024 := by norm_num [zpow_neg]
  have hlow : (K : ℚ) - 1 / 2 ≤ round_to_double q := by
    have := le_round_to_double q (2 * K - 1) (-1) (by omega) (by
      rw [hhalf]; push_cast; linarith)
    rw [hhalf] at this; push_cast at this; linarith
  have hupp : round_to_double q < (K : ℚ) + 1 / 2 := by
    have hgap := frac_gap_below_half (b * 100) (100 + p) K (by omega) (by omega) (by
      rw [← hq]; linarith)
    have := round_to_double_le q (1024 * K + 511) (-10) hexp hgap
    rw [hz] at this; push_cast at this; linarith
  have hnn : 0 ≤ round_to_double q := by
    have := le_round_to_double q 0 0 (by omega) (by simpa using hq0)
    simpa using this
  have hr : roundl (round_to_double q) = K := roundl_of_nonneg _ K hnn hlow hupp
  have hqeq : (b : ℚ) * 100 / (100 + p) = q := by rw [hq]; push_cast; rfl
  rw [hqeq]
  unfold deduce_fec_overhead
  simp only [hnum, hden]
  rw [if_neg hdpos.ne', hr, if_pos ⟨by omega, by omega⟩]

/-- C6: for an `int` bandwidth `b ≥ 0` and a FEC percentage `1 ≤ p ≤ 400`,
`deduce_fec_overhead b p` is the rational `b * 100 / (100 + p)` rounded to the
nearest integer, ties away from zero: the three binary64 roundings change nothing. -/
theorem C6_deduce_fec_overhead_exact (b p : Int) (hb0 : 0 ≤ b) (hb1 : b < 2 ^ 31)
    (hp0 : 1 ≤ p) (hp1 : p ≤ 400) :
    deduce_fec_overhead b p
      = some (round_nearest_ties_away ((b : ℚ) * 100 / (100 + p))) := by
  have hq : (0 : ℚ) ≤ (b : ℚ) * 100 / (100 + p) := by
    have h1 : (0 : ℚ) ≤ b := by exact_mod_cast hb0
    have h2 : (1 : ℚ) ≤ p := by exact_mod_cast hp0
    exact div_nonneg (by linarith) (by linarith)
  rw [deduce_fec_overhead_floor b p hb0 hb1 hp0 hp1, round_nearest_ties_away, if_pos hq]

/-- Witness for C6: `deduce_fec_overhead(12000, 20)` is 10000. -/
theorem C6_deduce_fec_overhead_exact_witness :
    deduce_fec_overhead 12000 20 = some 10000 :=
  (C6_deduce_fec_overhead_exact 12000 20 (by norm_num) (by norm_num) (by norm_num)
    (by norm_num)).trans (by norm_num [round_nearest_ties_away])

/-- C7: the 5 GHz table has the tabulated pairs for MCS 0..12, (5000, 5000) above
12, and the two argument overload selects the 40 MHz component exactly when
`is_40_mhz` is true. -/
theorem C7_rate_5G_table :
    (List.map rtl8812au_get_max_rate_5G_kbits (List.range 13) =
      [⟨4700, 7400⟩, ⟨9800, 15300⟩, ⟨13200, 20600⟩, ⟨16200, 25000⟩, ⟨20000, 30000⟩,
       ⟨23000, 40000⟩, ⟨26000, 50000⟩, ⟨29000, 55000⟩, ⟨8700, 18100⟩, ⟨18000, 28000⟩,
       ⟨22000, 33000⟩, ⟨27000, 46000⟩, ⟨27000, 46000⟩]) ∧
    (∀ mcs : Nat, mcs > 12 → rtl8812au_get_max_rate_5G_kbits mcs = ⟨5000, 5000⟩) ∧
    (∀ mcs : Nat,
      rtl8812au_get_max_rate_5G_kbits_bw mcs true
        = (rtl8812au_get_max_rate_5G_kbits mcs).rate_40mhz ∧
      rtl8812au_get_max_rate_5G_kbits_bw mcs false
        = (rtl8812au_get_max_rate_5G_kbits mcs).rate_20mhz) := by
  refine ⟨by decide, ?_, fun mcs => ⟨rfl, rfl⟩⟩
  intro mcs h
  obtain ⟨k, rfl⟩ : ∃ k, mcs = k + 13 := ⟨mcs - 13, by omega⟩
  rfl

/-- Witness for C7: the largest `uint16_t` index falls back to (5000, 5000). -/
theorem C7_rate_5G_table_witness :
    rtl8812au_get_max_rate_5G_kbits 65535 = ⟨5000, 5000⟩ :=
  C7_rate_5G_table.2.1 65535 (by decide)

/-- C8: an `int` MCS index, converted to the `uint32_t` parameter, is valid exactly
when it lies in 0..31. -/
theorem C8_is_valid_mcs_index (index : Int)
    (hlo : -2 ^ 31 ≤ index) (hhi : index < 2 ^ 31) :
    is_valid_mcs_index (to_uint32 index) = true ↔ 0 ≤ index ∧ index ≤ 31 := by
  unfold is_valid_mcs_index to_uint32
  simp only [ge_iff_le, Nat.zero_le, decide_True, Bool.true_and, decide_eq_true_eq]
  omega

/-- Witness for C8: the index -1 converts to 4294967295 and is rejected. -/
theorem C8_is_valid_mcs_index_witness :
    (is_valid_mcs_index (to_uint32 (-1)) = true ↔ (0 : Int) ≤ -1 ∧ (-1 : Int) ≤ 31) :=
  C8_is_valid_mcs_index (-1) (by norm_num) (by norm_num)

/-- C9: a TX power in milliwatt is valid exactly when it lies in 10..30000. -/
theorem C9_is_valid_tx_power_milli_watt (tx_power_mw : Int) :
    is_valid_tx_power_milli_watt tx_power_mw = true ↔
      10 ≤ tx_power_mw ∧ tx_power_mw ≤ 30000 := by
  unfold is_valid_tx_power_milli_watt
  simp only [Bool.and_eq_true, decide_eq_true_eq]
  omega

/-- C10: a FEC percentage is valid exactly when it lies in 1..400. -/
theorem C10_is_valid_fec_percentage (fec_perc : Int) :
    is_valid_fec_percentage fec_perc = true ↔ 1 ≤ fec_perc ∧ fec_perc ≤ 400 := by
  unfold is_valid_fec_percentage
  simp only [Bool.and_eq_true, decide_eq_true_eq]
  omega

/-- C11: a channel width is valid exactly when it is 20 or 40. -/
theorem C11_is_valid_channel_width (channel_width : Nat) :
    is_valid_channel_width channel_width = true ↔ channel_width = 20 ∨ channel_width = 40 := by
  unfold is_valid_channel_width
  simp only [Bool.or_eq_true, decide_eq_true_eq]

/-- C15: for `b ≥ 0` and `p ≥ 0` whose product fits a 32 bit `int`,
`multiply_by_perc b p` is the floor of `b * p / 100`; a percentage of 100 gives
`b` back and a percentage of at most 100 never gives more than `b`. -/
theorem C15_multiply_by_perc_floor (b p : Int) (hb : 0 ≤ b) (hp : 0 ≤ p)
    (hfit : b * p < 2 ^ 31) :
    multiply_by_perc b p = ⌊((b * p : Int) : ℚ) / 100⌋ ∧
    multiply_by_perc b p = b * p / 100 ∧
    (p = 100 → multiply_by_perc b p = b) ∧
    (p ≤ 100 → multiply_by_perc b p ≤ b) := by
  have hprod : 0 ≤ b * p := mul_nonneg hb hp
  have hw : wrap_int32 (b * p) = b * p := by unfold wrap_int32; omega
  have hdiv : multiply_by_perc b p = b * p / 100 := by
    unfold multiply_by_perc
    rw [hw, Int.tdiv_eq_ediv hprod (by norm_num)]
  refine ⟨?_, hdiv, ?_, ?_⟩
  · rw [hdiv]
    have := Rat.floor_intCast_div_natCast (b * p) 100
    simpa using this.symm
  · intro h100
    rw [hdiv, h100]
    omega
  · intro hle
    rw [hdiv]
    have : b * p ≤ b * 100 := Int.mul_le_mul_of_nonneg_left hle hb
    omega

/-- Witness for C15: 80 percent of 10000 kbit/s is 8000 kbit/s. -/
theorem C15_multiply_by_perc_floor_witness :
    multiply_by_perc 10000 80 = 10000 * 80 / 100 ∧ multiply_by_perc 10000 80 ≤ 10000 :=
  ⟨(C15_multiply_by_perc_floor 10000 80 (by norm_num) (by norm_num) (by norm_num)).2.1,
   (C15_multiply_by_perc_floor 10000 80 (by norm_num) (by norm_num) (by norm_num)).2.2.2
     (by norm_num)⟩

/-- C16: a work item is ready exactly when the clock has reached its earliest
execution time, and it stays ready at every later clock reading. -/
theorem C16_ready_to_be_executed (w : WorkItem) (now : Int) :
    (w.ready_to_be_executed now = true ↔ now ≥ w.m_earliest_execution_time) ∧
    (∀ later : Int, now ≤ later → w.ready_to_be_executed now = true →
      w.ready_to_be_executed later = true) := by
  unfold WorkItem.ready_to_be_executed
  simp only [decide_eq_true_eq]
  exact ⟨trivial, fun later h1 h2 => le_trans h2 h1⟩

/-- Witness for C16: an item due at 5 that is ready at 7 is still ready at 9. -/
theorem C16_ready_to_be_executed_witness :
    (⟨"SET_FREQ", 5⟩ : WorkItem).ready_to_be_executed 9 = true :=
  (C16_ready_to_be_executed ⟨"SET_FREQ", 5⟩ 7).2 9 (by decide) (by decide)

theorem rtl8812au_rate_5G_bounds (mcs : Nat) (is_40_mhz : Bool) :
    4700 ≤ rtl8812au_get_max_rate_5G_kbits_bw mcs is_40_mhz ∧
    rtl8812au_get_max_rate_5G_kbits_bw mcs is_40_mhz ≤ 55000 := by
  by_cases h : mcs ≤ 12
  · interval_cases mcs <;> cases is_40_mhz <;> decide
  · obtain ⟨k, rfl⟩ : ∃ k, mcs = k + 13 := ⟨mcs - 13, by omega⟩
    have hk : rtl8812au_get_max_rate_5G_kbits (k + 13) = ⟨5000, 5000⟩ := rfl
    cases is_40_mhz <;> simp [rtl8812au_get_max_rate_5G_kbits_bw, hk]

theorem get_max_rate_possible_5G_bounds (card : WiFiCard) (mcs : Nat) (is_40Mhz : Bool) :
    4700 ≤ get_max_rate_possible_5G_kbits card mcs is_40Mhz ∧
    get_max_rate_possible_5G_kbits card mcs is_40Mhz ≤ 55000 := by
  unfold get_max_rate_possible_5G_kbits
  split_ifs
  · exact rtl8812au_rate_5G_bounds mcs is_40Mhz
  · omega

/-- C17, evaluation of the code: for the RTL88x2AU card at MCS 0 and 20 MHz the
2.4 GHz rate is 5875 kbit/s and the 5 GHz rate is 4700 kbit/s; for every card,
MCS index and width the 2.4 GHz rate is strictly above the 5 GHz rate. -/
theorem C17_rate_2G_above_5G :
    get_max_rate_possible_5G_kbits ⟨WiFiCardType.OPENHD_RTL_88X2AU⟩ 0 false = 4700 ∧
    get_max_rate_possible_2G_kbits ⟨WiFiCardType.OPENHD_RTL_88X2AU⟩ 0 false = 5875 ∧
    get_max_rate_possible ⟨WiFiCardType.OPENHD_RTL_88X2AU⟩ WifiSpace.G2_4 0 false = 5875 ∧
    get_max_rate_possible ⟨WiFiCardType.OPENHD_RTL_88X2AU⟩ WifiSpace.G5_8 0 false = 4700 ∧
    ∀ (card : WiFiCard) (mcs : Nat) (is_40Mhz : Bool),
      get_max_rate_possible_5G_kbits card mcs is_40Mhz
        < get_max_rate_possible_2G_kbits card mcs is_40Mhz := by
  refine ⟨by decide, by decide, by decide, by decide, ?_⟩
  intro card mcs is_40Mhz
  have h := get_max_rate_possible_5G_bounds card mcs is_40Mhz
  unfold get_max_rate_possible_2G_kbits
  simp only
  rw [Nat.mod_eq_of_lt (by omega)]
  omega

/-- C18, counterexample: on a new helper, `update(10, 0)` two seconds after the
last recalculation has `f = 10` not below the baseline 0, and leaves the
accumulator at 0 instead of 0 + 10. -/
theorem C18_accumulator_counterexample :
    (ForeignPacketsHelper.init 0).m_foreign_packets_last_time ≤ 10 ∧
    Option.map (fun s => s.m_pps_foreign_packets_count)
      (ForeignPacketsHelper.update (ForeignPacketsHelper.init 0) 10 0 2000000000 2000000000)
      = some 0 ∧
    (0 : Int) ≠ (ForeignPacketsHelper.init 0).m_pps_foreign_packets_count + (10 - 0) := by
  decide

theorem int_div_of_pos (a b : Int) (hb : 0 < b) :
    ForeignPacketsHelper.int_div a b = some (Int.tdiv a b) := by
  unfold ForeignPacketsHelper.int_div
  rw [if_neg (by omega), if_neg (by omega)]

/-- At `2 ^ 32` microseconds since the last recalculation `elapsed_us` is 0 and the
division that computes the estimate is undefined: the call does not return. -/
theorem update_division_by_zero :
    ForeignPacketsHelper.update (ForeignPacketsHelper.init 0) 1 0
      4294967296000 4294967296000 = none := by
  decide

/-- C18, amended: with `f` the clamped difference of the counters, a call with `f`
below the baseline only stores `f`. A call with `f` not below the baseline (the
difference and the accumulator sum below `2 ^ 31`) stores `f`; when at most one
second elapsed since the last recalculation the accumulator grows by exactly `f`
minus the old baseline and the reported value is unchanged; when more than one
second elapsed, and the elapsed microseconds fit an `int`, the accumulator is 0
after the recalculation. -/
theorem C18_update_baseline_and_accumulator
    (s : ForeignPacketsHelper) (count_p_any count_p_valid f : Nat) (now stamp : Int)
    (hf : f = if count_p_any > count_p_valid then count_p_any - count_p_valid else 0) :
    (f < s.m_foreign_packets_last_time →
      ForeignPacketsHelper.update s count_p_any count_p_valid now stamp
        = some { s with m_foreign_packets_last_time := f }) ∧
    (s.m_foreign_packets_last_time ≤ f →
      0 ≤ s.m_pps_foreign_packets_count →
      s.m_pps_foreign_packets_count + ((f - s.m_foreign_packets_last_time : Nat) : Int)
        < 2 ^ 31 →
      (now - s.m_pps_last_recalculation ≤ seconds 1 →
        ForeignPacketsHelper.update s count_p_any count_p_valid now stamp
          = some { s with
              m_foreign_packets_last_time := f,
              m_pps_foreign_packets_count := s.m_pps_foreign_packets_count
                + ((f - s.m_foreign_packets_last_time : Nat) : Int) }) ∧
      (now - s.m_pps_last_recalculation > seconds 1 →
        (now - s.m_pps_last_recalculation) / 1000 < 2 ^ 31 →
        ∃ s2, ForeignPacketsHelper.update s count_p_any count_p_valid now stamp = some s2 ∧
          s2.m_foreign_packets_last_time = f ∧
          s2.m_pps_foreign_packets_count = 0 ∧
          s2.m_pps_last_recalculation = stamp)) := by
  constructor
  · intro hlt
    unfold ForeignPacketsHelper.update
    simp only [← hf]
    rw [if_pos hlt]
  · intro hle h0 hsum
    have hd64 : (f - s.m_foreign_packets_last_time) % 2 ^ 64
        = f - s.m_foreign_packets_last_time := by
      apply Nat.mod_eq_of_lt
      have : ((f - s.m_foreign_packets_last_time : Nat) : Int) < 2 ^ 31 := by omega
      have h2 : (f - s.m_foreign_packets_last_time : Nat) < 2 ^ 31 := by exact_mod_cast this
      omega
    have hwd : wrap_int32 ((f - s.m_foreign_packets_last_time : Nat) : Int)
        = ((f - s.m_foreign_packets_last_time : Nat) : Int) := by
      unfold wrap_int32; omega
    have hws : wrap_int32 (s.m_pps_foreign_packets_count
        + ((f - s.m_foreign_packets_last_time : Nat) : Int))
        = s.m_pps_foreign_packets_count
          + ((f - s.m_foreign_packets_last_time : Nat) : Int) := by
      unfold wrap_int32; omega
    have hs1 : seconds 1 = 1000000000 := rfl
    constructor
    · intro he
      unfold ForeignPacketsHelper.update
      simp only [← hf]
      rw [if_neg (by omega), hd64, hwd]
      unfold ForeignPacketsHelper.update_n_foreign_packets
      simp only [hws]
      rw [if_pos (by omega), if_neg (by omega)]
    · intro he hfit
      have hus : wrap_int32 (Int.tdiv (now - s.m_pps_last_recalculation) 1000)
          = (now - s.m_pps_last_recalculation) / 1000 := by
        rw [hs1] at he
        rw [Int.tdiv_eq_ediv (by omega) (by norm_num)]
        unfold wrap_int32; omega
      have hpos : 0 < (now - s.m_pps_last_recalculation) / 1000 := by
        rw [hs1] at he; omega
      unfold ForeignPacketsHelper.update
      simp only [← hf]
      rw [if_neg (by omega), hd64, hwd]
      unfold ForeignPacketsHelper.update_n_foreign_packets
      simp only [hws, hus]
      rw [if_pos (by omega), if_pos he]
      split_ifs with hc
      · refine ⟨_, rfl, rfl, ?_, rfl⟩
        simp only
        omega
      · rw [int_div_of_pos _ _ hpos]
        exact ⟨_, rfl, rfl, rfl, rfl⟩

/-- Witness for C18: a counter reset (`f` below the baseline) only moves the
baseline; within the first second the accumulator grows by the delta; after two
seconds the accumulator is 0. -/
theorem C18_update_baseline_and_accumulator_witness :
    ForeignPacketsHelper.update ⟨7, 2, 0, -1⟩ 5 0 500000000 500000000
      = some ⟨5, 2, 0, -1⟩ ∧
    ForeignPacketsHelper.update ⟨7, 2, 0, -1⟩ 10 0 500000000 500000000
      = some ⟨10, 2 + ((10 - 7 : Nat) : Int), 0, -1⟩ ∧
    ∃ s2, ForeignPacketsHelper.update ⟨7, 2, 0, -1⟩ 10 0 2000000000 2000000000 = some s2 ∧
      s2.m_foreign_packets_last_time = 10 ∧ s2.m_pps_foreign_packets_count = 0 ∧
      s2.m_pps_last_recalculation = 2000000000 :=
  ⟨(C18_update_baseline_and_accumulator ⟨7, 2, 0, -1⟩ 5 0 5 500000000 500000000 rfl).1
      (by decide),
   ((C18_update_baseline_and_accumulator ⟨7, 2, 0, -1⟩ 10 0 10 500000000 500000000 rfl).2
      (by decide) (by decide) (by decide)).1 (by decide),
   ((C18_update_baseline_and_accumulator ⟨7, 2, 0, -1⟩ 10 0 10 2000000000 2000000000 rfl).2
      (by decide) (by decide) (by decide)).2 (by decide) (by decide)⟩

/-- Below the overflow of `count * 1000 * 1000` (accumulated count at most 2147)
and for an elapsed time whose microseconds fit an `int`, the recalculation
reports the floor of `c * 1000000 / e` and resets the accumulator. -/
theorem update_n_foreign_packets_pps_small (s : ForeignPacketsHelper) (n : Int)
    (now stamp : Int) (hn : 0 ≤ n)
    (hc1 : 1 ≤ s.m_pps_foreign_packets_count + n)
    (hc2 : s.m_pps_foreign_packets_count + n ≤ 2147)
    (he : now - s.m_pps_last_recalculation > seconds 1)
    (he2 : (now - s.m_pps_last_recalculation) / 1000 < 2 ^ 31) :
    ForeignPacketsHelper.update_n_foreign_packets s n now stamp
      = some { s with
          m_pps_last_recalculation := stamp,
          m_pps_current := (s.m_pps_foreign_packets_count + n) * 1000000
            / ((now - s.m_pps_last_recalculation) / 1000),
          m_pps_foreign_packets_count := 0 } := by
  have hs : seconds 1 = 1000000000 := rfl
  rw [hs] at he
  have hw0 : wrap_int32 (s.m_pps_foreign_packets_count + n)
      = s.m_pps_foreign_packets_count + n := by unfold wrap_int32; omega
  have hw1 : wrap_int32 ((s.m_pps_foreign_packets_count + n) * 1000)
      = (s.m_pps_foreign_packets_count + n) * 1000 := by unfold wrap_int32; omega
  have hw2 : wrap_int32 ((s.m_pps_foreign_packets_count + n) * 1000 * 1000)
      = (s.m_pps_foreign_packets_count + n) * 1000000 := by unfold wrap_int32; omega
  have hel : Int.tdiv (now - s.m_pps_last_recalculation) 1000
      = (now - s.m_pps_last_recalculation) / 1000 :=
    Int.tdiv_eq_ediv (by omega) (by norm_num)
  have hw3 : wrap_int32 ((now - s.m_pps_last_recalculation) / 1000)
      = (now - s.m_pps_last_recalculation) / 1000 := by unfold wrap_int32; omega
  unfold ForeignPacketsHelper.update_n_foreign_packets
  simp only [hw0, hs]
  rw [if_pos hn, if_pos he, if_neg (by omega), hw1, hw2, hel, hw3,
    int_div_of_pos _ _ (by omega), Int.tdiv_eq_ediv (by omega) (by omega)]

/-- C19, evaluation of the code: on a new helper, 3000 foreign packets reported
1.5 s after the last recalculation make `count * 1000 * 1000` leave the range of
`int`; the reported value is -863 where the floor of `c * 1000000 / e` is 2000. -/
theorem C19_pps_int_overflow :
    Option.map ForeignPacketsHelper.get_foreign_packets_per_second
      (ForeignPacketsHelper.update_n_foreign_packets (ForeignPacketsHelper.init 0) 3000
        1500000000 1500000000) = some (-863) ∧
    Option.map ForeignPacketsHelper.get_foreign_packets_per_second
      (ForeignPacketsHelper.update (ForeignPacketsHelper.init 0) 3000 0
        1500000000 1500000000) = some (-863) ∧
    (3000 * 1000000 : Int) / 1500000 = 2000 := by
  decide

theorem init_read_last_settings {T : Type} (impl : PersistentSettingsImpl T)
    (p : PersistentSettings T) (w : World) :
    PersistentSettings.read_last_settings impl p
        (if !OHDFilesystemUtil.exists w p._base_path then
          OHDFilesystemUtil.create_directory w p._base_path else w)
      = (match w.fs.files (PersistentSettings.get_file_path impl p) with
        | none => none
        | some content => impl.impl_deserialize content) := by
  unfold PersistentSettings.read_last_settings OHDFilesystemUtil.opt_read_file
  split_ifs <;> rfl

/-- C12: `init` on an explicit file system. If the settings file exists and
deserialises, the settings are the deserialised value and no file is written;
if the file is absent or does not deserialise, the settings are the default and
the file holds the serialised default. `get_settings()` is defined in both cases. -/
theorem C12_init_reads_or_creates_default {T : Type} (impl : PersistentSettingsImpl T)
    (p : PersistentSettings T) (w : World) :
    (∀ content v, w.fs.files (PersistentSettings.get_file_path impl p) = some content →
      impl.impl_deserialize content = some v →
      ∃ p2 w2, PersistentSettings.init impl p w = some (p2, w2) ∧
        p2.get_settings = some v ∧ w2.fs.files = w.fs.files ∧ w2.trace = w.trace) ∧
    ((w.fs.files (PersistentSettings.get_file_path impl p) = none ∨
      ∃ content, w.fs.files (PersistentSettings.get_file_path impl p) = some content ∧
        impl.impl_deserialize content = none) →
      ∃ p2 w2, PersistentSettings.init impl p w = some (p2, w2) ∧
        p2.get_settings = some impl.create_default ∧
        w2.fs.files (PersistentSettings.get_file_path impl p)
          = some (impl.imp_serialize impl.create_default) ∧
        w2.trace = w.trace ++ [Event.file_written (PersistentSettings.get_file_path impl p)
          (impl.imp_serialize impl.create_default)]) := by
  have hread := init_read_last_settings impl p w
  constructor
  · intro content v hfile hparse
    rw [hfile] at hread
    simp only [hparse] at hread
    unfold PersistentSettings.init
    simp only [hread]
    refine ⟨_, _, rfl, rfl, ?_, ?_⟩ <;> split_ifs <;> rfl
  · intro habsent
    have hnone : (match w.fs.files (PersistentSettings.get_file_path impl p) with
        | none => none
        | some content => impl.impl_deserialize content) = none := by
      rcases habsent with h | ⟨content, h, hparse⟩
      · rw [h]
      · rw [h]; exact hparse
    rw [hnone] at hread
    unfold PersistentSettings.init
    simp only [hread, PersistentSettings.persist_settings]
    refine ⟨_, _, rfl, rfl, ?_, ?_⟩
    · simp [OHDFilesystemUtil.write_file, PersistentSettings.get_file_path]
    · split_ifs <;> rfl

/-- Witness for C12: with no file the default is created and written; with a
file that deserialises its value is used. -/
theorem C12_init_reads_or_creates_default_witness :
    (∃ p2 w2, PersistentSettings.init
        (NetworkingSettingsHolder (fun _ => none) (fun _ => "default"))
        ⟨"/cfg/", none, false⟩ World.empty = some (p2, w2) ∧
      p2.get_settings = some ⟨0, 0⟩ ∧
      w2.fs.files "/cfg/networking_settings.json" = some "default" ∧
      w2.trace = [Event.file_written "/cfg/networking_settings.json" "default"]) ∧
    (∃ p2 w2, PersistentSettings.init
        (NetworkingSettingsHolder (fun c => if c = "on" then some ⟨2, 0⟩ else none)
          (fun _ => "default"))
        ⟨"/cfg/", none, false⟩
        (OHDFilesystemUtil.write_file World.empty "/cfg/networking_settings.json" "on")
        = some (p2, w2) ∧
      p2.get_settings = some ⟨2, 0⟩ ∧
      w2.fs.files = (OHDFilesystemUtil.write_file World.empty
        "/cfg/networking_settings.json" "on").fs.files ∧
      w2.trace = (OHDFilesystemUtil.write_file World.empty
        "/cfg/networking_settings.json" "on").trace) :=
  ⟨(C12_init_reads_or_creates_default
      (NetworkingSettingsHolder (fun _ => none) (fun _ => "default"))
      ⟨"/cfg/", none, false⟩ World.empty).2 (Or.inl rfl),
   (C12_init_reads_or_creates_default
      (NetworkingSettingsHolder (fun c => if c = "on" then some ⟨2, 0⟩ else none)
        (fun _ => "default"))
      ⟨"/cfg/", none, false⟩
      (OHDFilesystemUtil.write_file World.empty "/cfg/networking_settings.json" "on")).1
      "on" ⟨2, 0⟩ (by decide) (by decide)⟩

theorem persist_writes_file {T : Type} (impl : PersistentSettingsImpl T)
    (p : PersistentSettings T) (w : World) (trigger_restart : Bool) (v : T)
    (hv : p._settings = some v) :
    ∃ w2, PersistentSettings.persist impl p w trigger_restart = some w2 ∧
      w2.fs.files (PersistentSettings.get_file_path impl p) = some (impl.imp_serialize v) ∧
      w2.trace = w.trace
        ++ [Event.file_written (PersistentSettings.get_file_path impl p) (impl.imp_serialize v)]
        ++ (if p._settings_changed_callback && trigger_restart
            then [Event.settings_changed_callback] else []) := by
  unfold PersistentSettings.persist
  simp only [PersistentSettings.persist_settings, hv]
  by_cases hcb : (p._settings_changed_callback && trigger_restart) = true
  · simp only [hcb, if_true]
    refine ⟨_, rfl, ?_, ?_⟩
    · simp [PersistentSettings.invoke_callback, OHDFilesystemUtil.write_file]
    · simp [PersistentSettings.invoke_callback, OHDFilesystemUtil.write_file]
  · simp only [hcb, if_false]
    refine ⟨_, rfl, ?_, ?_⟩
    · simp [OHDFilesystemUtil.write_file]
    · simp [OHDFilesystemUtil.write_file]

/-- C13: `update_settings(s)` stores `s`, writes the serialised `s` to the settings
file and then invokes the listener once if one is registered; `persist(false)`
writes the file and invokes nothing. -/
theorem C13_update_settings_persists {T : Type} (impl : PersistentSettingsImpl T)
    (p : PersistentSettings T) (w : World) (s : T) :
    (∃ p2 w2, PersistentSettings.update_settings impl p w s = some (p2, w2) ∧
      p2.get_settings = some s ∧
      w2.fs.files (PersistentSettings.get_file_path impl p) = some (impl.imp_serialize s) ∧
      w2.trace = w.trace
        ++ [Event.file_written (PersistentSettings.get_file_path impl p) (impl.imp_serialize s)]
        ++ (if p._settings_changed_callback then [Event.settings_changed_callback] else [])) ∧
    (∀ v, p._settings = some v →
      ∃ w2, PersistentSettings.persist impl p w false = some w2 ∧
        w2.fs.files (PersistentSettings.get_file_path impl p) = some (impl.imp_serialize v) ∧
        w2.trace = w.trace
          ++ [Event.file_written (PersistentSettings.get_file_path impl p)
                (impl.imp_serialize v)]) := by
  constructor
  · unfold PersistentSettings.update_settings
    simp only [PersistentSettings.persist_settings]
    by_cases hcb : p._settings_changed_callback = true
    · simp only [hcb, if_true]
      refine ⟨_, _, rfl, rfl, ?_, ?_⟩
      · simp [PersistentSettings.invoke_callback, OHDFilesystemUtil.write_file,
          PersistentSettings.get_file_path]
      · simp [PersistentSettings.invoke_callback, OHDFilesystemUtil.write_file,
          PersistentSettings.get_file_path]
    · simp only [hcb, if_false]
      refine ⟨_, _, rfl, rfl, ?_, ?_⟩
      · simp [OHDFilesystemUtil.write_file, PersistentSettings.get_file_path]
      · simp [OHDFilesystemUtil.write_file, PersistentSettings.get_file_path]
  · intro v hv
    unfold PersistentSettings.persist
    simp only [PersistentSettings.persist_settings, hv, Bool.and_false]
    refine ⟨_, rfl, ?_, ?_⟩
    · simp [OHDFilesystemUtil.write_file]
    · simp [OHDFilesystemUtil.write_file]

/-- Witness for C13: with a listener registered, `persist(false)` leaves a trace of
the write alone. -/
theorem C13_update_settings_persists_witness :
    ∃ w2, PersistentSettings.persist
        (NetworkingSettingsHolder (fun _ => none) (fun _ => "content"))
        ⟨"/cfg/", some ⟨1, 0⟩, true⟩ World.empty false = some w2 ∧
      w2.fs.files "/cfg/networking_settings.json" = some "content" ∧
      w2.trace = [Event.file_written "/cfg/networking_settings.json" "content"] :=
  (C13_update_settings_persists
    (NetworkingSettingsHolder (fun _ => none) (fun _ => "content"))
    ⟨"/cfg/", some ⟨1, 0⟩, true⟩ World.empty ⟨1, 0⟩).2 ⟨1, 0⟩ rfl

theorem update_wifi_hotspot_enable_keeps_settings (o : OHDInterface)
    (settings : NetworkingSettings) (hotspot : WifiHotspot)
    (hs : o.m_nw_settings._settings = some settings)
    (hh : o.m_wifi_hotspot = some hotspot) :
    ∃ o2, OHDInterface.update_wifi_hotspot_enable o = some o2 ∧
      o2.m_nw_settings = o.m_nw_settings ∧ o2.world = o.world := by
  unfold OHDInterface.update_wifi_hotspot_enable
  simp only [hh, PersistentSettings.get_settings, hs]
  exact ⟨_, rfl, rfl, rfl⟩

/-- C14: the `WIFI_HOTSPOT_E` change callback rejects every value outside
{0, 1, 2} and changes nothing; for a value in {0, 1, 2} it returns true, stores the
value as `wifi_hotspot_mode` and writes the serialised settings to the file. -/
theorem C14_cb_wifi_hotspot_mode (impl : PersistentSettingsImpl NetworkingSettings)
    (o : OHDInterface) (value : Int) :
    (value ≠ 0 ∧ value ≠ 1 ∧ value ≠ 2 →
      OHDInterface.cb_wifi_hotspot_mode impl o value = some (false, o)) ∧
    (value = 0 ∨ value = 1 ∨ value = 2 →
      ∀ settings hotspot, o.m_nw_settings._settings = some settings →
        o.m_wifi_hotspot = some hotspot →
        ∃ o2, OHDInterface.cb_wifi_hotspot_mode impl o value = some (true, o2) ∧
          o2.m_nw_settings.get_settings
            = some { settings with wifi_hotspot_mode := value } ∧
          o2.world.fs.files (PersistentSettings.get_file_path impl o.m_nw_settings)
            = some (impl.imp_serialize { settings with wifi_hotspot_mode := value })) := by
  constructor
  · rintro ⟨h0, h1, h2⟩
    unfold OHDInterface.cb_wifi_hotspot_mode
    simp [is_valid_wifi_hotspot_mode, h0, h1, h2]
  · intro hvalid settings hotspot hs hh
    have hv : is_valid_wifi_hotspot_mode value = true := by
      unfold is_valid_wifi_hotspot_mode
      simp only [Bool.or_eq_true, decide_eq_true_eq]
      tauto
    obtain ⟨w1, hp, hfile, -⟩ := persist_writes_file impl
      { o.m_nw_settings with _settings := some { settings with wifi_hotspot_mode := value } }
      o.world true { settings with wifi_hotspot_mode := value } rfl
    obtain ⟨o2, hu, hnw, hw⟩ := update_wifi_hotspot_enable_keeps_settings
      { o with
        m_nw_settings :=
          { o.m_nw_settings with
            _settings := some { settings with wifi_hotspot_mode := value } },
        world := w1 }
      { settings with wifi_hotspot_mode := value } hotspot rfl hh
    refine ⟨o2, ?_, ?_, ?_⟩
    · unfold OHDInterface.cb_wifi_hotspot_mode
      simp only [hv, Bool.not_true, Bool.false_eq_true, if_false,
        PersistentSettings.unsafe_get_settings, hs, hp, hu]
    · rw [hnw]; rfl
    · rw [hw]; exact hfile

/-- Witness for C14: the value 3 is rejected without any change; the value 2 is
stored and written. -/
theorem C14_cb_wifi_hotspot_mode_witness :
    OHDInterface.cb_wifi_hotspot_mode
        (NetworkingSettingsHolder (fun _ => none)
          (fun s => if s.wifi_hotspot_mode = 2 then "on" else "other"))
        ⟨some ⟨true, 5180⟩, ⟨"/cfg/", some ⟨0, 0⟩, false⟩, ⟨false⟩, ⟨2, 5180⟩, World.empty⟩ 3
      = some (false,
        ⟨some ⟨true, 5180⟩, ⟨"/cfg/", some ⟨0, 0⟩, false⟩, ⟨false⟩, ⟨2, 5180⟩, World.empty⟩) ∧
    ∃ o2, OHDInterface.cb_wifi_hotspot_mode
        (NetworkingSettingsHolder (fun _ => none)
          (fun s => if s.wifi_hotspot_mode = 2 then "on" else "other"))
        ⟨some ⟨true, 5180⟩, ⟨"/cfg/", some ⟨0, 0⟩, false⟩, ⟨false⟩, ⟨2, 5180⟩, World.empty⟩ 2
        = some (true, o2) ∧
      o2.m_nw_settings.get_settings = some ⟨2, 0⟩ ∧
      o2.world.fs.files "/cfg/networking_settings.json" = some "on" :=
  ⟨(C14_cb_wifi_hotspot_mode _ _ 3).1 (by decide),
   (C14_cb_wifi_hotspot_mode
      (NetworkingSettingsHolder (fun _ => none)
        (fun s => if s.wifi_hotspot_mode = 2 then "on" else "other"))
      ⟨some ⟨true, 5180⟩, ⟨"/cfg/", some ⟨0, 0⟩, false⟩, ⟨false⟩, ⟨2, 5180⟩, World.empty⟩ 2).2
      (by decide) ⟨0, 0⟩ ⟨true, 5180⟩ rfl rfl⟩

/-- C20: `update_wifi_hotspot_enable` asks for the hotspot to be enabled exactly
when the mode is AUTO and the flight controller is not armed, or the mode is
ALWAYS_ON; it is disabled in mode ALWAYS_OFF and for any other stored mode. The
published `m_wifi_hotspot_state` is 2 when enabled and 1 when disabled. -/
theorem C20_update_wifi_hotspot_enable (o : OHDInterface) (settings : NetworkingSettings)
    (hotspot : WifiHotspot) (hs : o.m_nw_settings._settings = some settings)
    (hh : o.m_wifi_hotspot = some hotspot) :
    ∃ o2 h2, OHDInterface.update_wifi_hotspot_enable o = some o2 ∧
      o2.m_wifi_hotspot = some h2 ∧
      (settings.wifi_hotspot_mode = 0 →
        h2.m_is_enabled = !o.arming_state_helper.m_is_armed) ∧
      (settings.wifi_hotspot_mode = 1 → h2.m_is_enabled = false) ∧
      (settings.wifi_hotspot_mode = 2 → h2.m_is_enabled = true) ∧
      (settings.wifi_hotspot_mode ≠ 0 ∧ settings.wifi_hotspot_mode ≠ 1 ∧
        settings.wifi_hotspot_mode ≠ 2 → h2.m_is_enabled = false) ∧
      o2.link_action_handler.m_wifi_hotspot_state = (if h2.m_is_enabled then 2 else 1) ∧
      o2.m_nw_settings = o.m_nw_settings ∧ o2.world = o.world := by
  unfold OHDInterface.update_wifi_hotspot_enable
  simp only [hh, PersistentSettings.get_settings, hs, WIFI_HOTSPOT_AUTO,
    WIFI_HOTSPOT_ALWAYS_OFF, WIFI_HOTSPOT_ALWAYS_ON, ArmingStateHelper.is_currently_armed,
    WifiHotspot.set_enabled_async]
  refine ⟨_, _, rfl, rfl, ?_, ?_, ?_, ?_, rfl, rfl, rfl⟩
  · intro h; simp [h]
  · intro h; simp [h]
  · intro h; simp [h]
  · rintro ⟨h0, h1, h2⟩; simp [h0, h1, h2]

/-- Witness for C20: mode AUTO with an armed flight controller disables the
hotspot and publishes state 1. -/
theorem C20_update_wifi_hotspot_enable_witness :
    ∃ o2 h2, OHDInterface.update_wifi_hotspot_enable
        ⟨some ⟨true, 5180⟩, ⟨"/cfg/", some ⟨0, 0⟩, false⟩, ⟨true⟩, ⟨0, 0⟩, World.empty⟩
        = some o2 ∧
      o2.m_wifi_hotspot = some h2 ∧ h2.m_is_enabled = false ∧
      o2.link_action_handler.m_wifi_hotspot_state = 1 := by
  obtain ⟨o2, h2, h1, h3, h4, -, -, -, h5, -, -⟩ := C20_update_wifi_hotspot_enable
    ⟨some ⟨true, 5180⟩, ⟨"/cfg/", some ⟨0, 0⟩, false⟩, ⟨true⟩, ⟨0, 0⟩, World.empty⟩
    ⟨0, 0⟩ ⟨true, 5180⟩ rfl rfl
  have h6 := h4 rfl
  refine ⟨o2, h2, h1, h3, h6, ?_⟩
  rw [h5, h6]
  rfl


theorem get_analyze_results_after_adds (rs : List LinkActionHandler.AnalyzeChannelsResult) :
    ∀ b : LinkActionHandler.Buffers,
      LinkActionHandler.get_analyze_results (rs.foldl LinkActionHandler.add_analyze_result b)
        = (b.m_scan_results ++ rs, { b with m_scan_results := [] }) := by
  induction rs with
  | nil => intro b; simp [LinkActionHandler.get_analyze_results]
  | cons r rs ih =>
    intro b
    rw [List.foldl_cons, ih]
    simp [LinkActionHandler.add_analyze_result]

theorem get_scan_channels_progress_after_adds
    (rs : List LinkActionHandler.ScanChannelsProgress) :
    ∀ b : LinkActionHandler.Buffers,
      LinkActionHandler.get_scan_channels_progress
          (rs.foldl LinkActionHandler.add_scan_channels_progress b)
        = (b.m_scan_channels_progress ++ rs, { b with m_scan_channels_progress := [] }) := by
  induction rs with
  | nil => intro b; simp [LinkActionHandler.get_scan_channels_progress]
  | cons r rs ih =>
    intro b
    rw [List.foldl_cons, ih]
    simp [LinkActionHandler.add_scan_channels_progress]

/-- C21: after a get, any sequence of added records is returned by the next get
exactly and in insertion order, and a get directly after a get returns the empty
list; for analyze results and for scan progress records alike. -/
theorem C21_progress_records_delivered_once (b : LinkActionHandler.Buffers)
    (rs : List LinkActionHandler.AnalyzeChannelsResult)
    (ps : List LinkActionHandler.ScanChannelsProgress) :
    (LinkActionHandler.get_analyze_results
        (rs.foldl LinkActionHandler.add_analyze_result
          (LinkActionHandler.get_analyze_results b).2)).1 = rs ∧
    (LinkActionHandler.get_analyze_results
        (LinkActionHandler.get_analyze_results
          (rs.foldl LinkActionHandler.add_analyze_result b)).2).1 = [] ∧
    (LinkActionHandler.get_analyze_results
        (rs.foldl LinkActionHandler.add_analyze_result b)).1 = b.m_scan_results ++ rs ∧
    (LinkActionHandler.get_scan_channels_progress
        (ps.foldl LinkActionHandler.add_scan_channels_progress
          (LinkActionHandler.get_scan_channels_progress b).2)).1 = ps ∧
    (LinkActionHandler.get_scan_channels_progress
        (LinkActionHandler.get_scan_channels_progress
          (ps.foldl LinkActionHandler.add_scan_channels_progress b)).2).1 = [] ∧
    (LinkActionHandler.get_scan_channels_progress
        (ps.foldl LinkActionHandler.add_scan_channels_progress b)).1
      = b.m_scan_channels_progress ++ ps := by
  simp only [get_analyze_results_after_adds, get_scan_channels_progress_after_adds]
  simp [LinkActionHandler.get_analyze_results, LinkActionHandler.get_scan_channels_progress]

/-- C22: a card of one of the six named types gets the RTL8812AU 5 GHz table
value; a card of any other type gets 5000 for every MCS index and width. -/
theorem C22_rate_lookup_fallback (card : WiFiCard) (mcs_index : Nat) (is_40Mhz : Bool) :
    ((card.type = WiFiCardType.OPENHD_RTL_88X2AU ∨
      card.type = WiFiCardType.OPENHD_RTL_88X2BU ∨
      card.type = WiFiCardType.OPENHD_RTL_88X2CU ∨
      card.type = WiFiCardType.OPENHD_RTL_88X2EU ∨
      card.type = WiFiCardType.OPENHD_RTL_8852BU ∨
      card.type = WiFiCardType.OPENHD_EMULATED) →
      get_max_rate_possible_5G_kbits card mcs_index is_40Mhz
        = rtl8812au_get_max_rate_5G_kbits_bw mcs_index is_40Mhz) ∧
    (¬ (card.type = WiFiCardType.OPENHD_RTL_88X2AU ∨
      card.type = WiFiCardType.OPENHD_RTL_88X2BU ∨
      card.type = WiFiCardType.OPENHD_RTL_88X2CU ∨
      card.type = WiFiCardType.OPENHD_RTL_88X2EU ∨
      card.type = WiFiCardType.OPENHD_RTL_8852BU ∨
      card.type = WiFiCardType.OPENHD_EMULATED) →
      get_max_rate_possible_5G_kbits card mcs_index is_40Mhz = 5000) := by
  unfold get_max_rate_possible_5G_kbits
  exact ⟨fun h => if_pos h, fun h => if_neg h⟩

/-- Witness for C22: a card of another type gets 5000 at MCS 3 and 40 MHz, where
the table would give 25000; an RTL88x2BU card gets the table value. -/
theorem C22_rate_lookup_fallback_witness :
    get_max_rate_possible_5G_kbits ⟨WiFiCardType.OTHER 0⟩ 3 true = 5000 ∧
    get_max_rate_possible_5G_kbits ⟨WiFiCardType.OPENHD_RTL_88X2BU⟩ 3 true
      = rtl8812au_get_max_rate_5G_kbits_bw 3 true :=
  ⟨(C22_rate_lookup_fallback ⟨WiFiCardType.OTHER 0⟩ 3 true).2 (by decide),
   (C22_rate_lookup_fallback ⟨WiFiCardType.OPENHD_RTL_88X2BU⟩ 3 true).1 (by decide)⟩

/-- C23, evaluation of the code: `DEFAULT_ENABLE_LDPC` is false and a
default-initialised `WBLinkSettings` has `wb_enable_ldpc` false. -/
theorem C23_ldpc_default_is_false :
    DEFAULT_ENABLE_LDPC = false ∧
    ∀ wb_frequency : Nat,
      (WBLinkSettings.default_initialised wb_frequency).wb_enable_ldpc = false :=
  ⟨rfl, fun _ => rfl⟩

/-- C27: the default link parameters pass the validators of their setters. -/
theorem C27_defaults_are_valid :
    is_valid_channel_width (to_uint32 DEFAULT_CHANNEL_WIDTH) = true ∧
    is_valid_mcs_index (to_uint32 DEFAULT_MCS_INDEX) = true ∧
    is_valid_tx_power_milli_watt DEFAULT_WIFI_TX_POWER_MILLI_WATT = true ∧
    is_valid_fec_percentage DEFAULT_WB_VIDEO_FEC_PERCENTAGE = true ∧
    is_valid_fec_block_length DEFAULT_WB_VIDEO_FEC_BLOCK_LENGTH = true ∧
    validate_wb_rtl8812au_tx_pwr_idx_override DEFAULT_RTL8812AU_TX_POWER_INDEX = true := by
  decide

/-- C29, evaluation of the code: `X_PLATFORM_TYPE_RPI_CM4` and
`X_PLATFORM_TYPE_RPI_5` are both 12, so the identifiers are not pairwise
distinct; all other identifiers are pairwise distinct. -/
theorem C29_platform_types_rpi_cm4_equals_rpi_5 :
    X_PLATFORM_TYPE_RPI_CM4 = X_PLATFORM_TYPE_RPI_5 ∧
    ¬ (X_PLATFORM_TYPES.map Prod.snd).Nodup ∧
    ((X_PLATFORM_TYPES.filter (fun e => e.1 ≠ "RPI_5")).map Prod.snd).Nodup := by
  decide

/-- C24, evaluation of the code: on a new helper, `update(2147483648, 0)` computes
the difference 2147483648, whose conversion to `int` is -2147483648, and the
assertion `n_foreign_packets >= 0` fails. -/
theorem C24_assertion_fails_for_large_delta :
    wrap_int32 (((2147483648 - 0) % 2 ^ 64 : Nat) : Int) = -2147483648 ∧
    ForeignPacketsHelper.update (ForeignPacketsHelper.init 0) 2147483648 0 1 1 = none := by
  decide

/-- C26: with no delay set and less than 3 seconds since the last check, a check
returns false and leaves the helper as it was; `notify_dropped_frame(n)` changes
only the counter and adds exactly `n` (within the range of the 32 bit counter);
drops notified before and after an early check all count at the next check that
is 3 seconds after the last one. -/
theorem C26_early_check_changes_nothing (s : FrameDropsHelper) (now stamp : Int)
    (hdelay : s.m_opt_no_error_delay = none)
    (hearly : now - s.m_last_check < seconds 3) :
    needs_bitrate_reduction s now stamp = (false, s) ∧
    (∀ n : Int,
      (notify_dropped_frame s n).m_last_check = s.m_last_check ∧
      (notify_dropped_frame s n).m_opt_no_error_delay = s.m_opt_no_error_delay ∧
      (-2 ^ 31 ≤ s.m_frame_drop_counter + n → s.m_frame_drop_counter + n < 2 ^ 31 →
        (notify_dropped_frame s n).m_frame_drop_counter = s.m_frame_drop_counter + n)) ∧
    (∀ (k m : Nat) (now2 stamp2 : Int), 0 ≤ s.m_frame_drop_counter →
      s.m_frame_drop_counter + k + m < 2 ^ 31 →
      now2 - s.m_last_check ≥ seconds 3 →
      ((needs_bitrate_reduction
          (notify_times (needs_bitrate_reduction (notify_times s k) now stamp).2 m)
          now2 stamp2).1 = true
        ↔ s.m_frame_drop_counter + k + m > 3)) := by
  have hstep : ∀ t : FrameDropsHelper, t.m_opt_no_error_delay = none →
      t.m_last_check = s.m_last_check → needs_bitrate_reduction t now stamp = (false, t) := by
    intro t ht hl
    unfold needs_bitrate_reduction
    rw [ht]
    simp only [hl, ge_iff_le, not_le.mpr hearly, if_false]
  refine ⟨hstep s hdelay rfl, ?_, ?_⟩
  · intro n
    refine ⟨rfl, rfl, ?_⟩
    intro h1 h2
    simp only [notify_dropped_frame]
    unfold wrap_int32
    omega
  · intro k m now2 stamp2 h0 hsum helapsed
    obtain ⟨hc1, hl1, hd1⟩ := notify_times_counter k s (by omega) h0
    rw [hstep _ (by rw [hd1, hdelay]) hl1]
    obtain ⟨hc2, hl2, hd2⟩ := notify_times_counter m (notify_times s k)
      (by rw [hc1]; omega) (by rw [hc1]; omega)
    unfold needs_bitrate_reduction
    rw [hd2, hd1, hdelay]
    simp only [hl2, hl1, helapsed, if_true, hc2, hc1, MAX_DROPPED_FRAMES_ALLOWED]
    split_ifs with hc
    · simp only [true_iff]; omega
    · simp only [Bool.false_eq_true, false_iff]; omega

/-- Witness for C26: two drops, an early check after 1 s, two more drops: the
check at 3 s sees all four. -/
theorem C26_early_check_changes_nothing_witness :
    needs_bitrate_reduction (FrameDropsHelper.init 0) 1000000000 1000000000
      = (false, FrameDropsHelper.init 0) ∧
    (needs_bitrate_reduction
        (notify_times (needs_bitrate_reduction (notify_times (FrameDropsHelper.init 0) 2)
          1000000000 1000000000).2 2)
        3000000000 3000000000).1 = true :=
  ⟨(C26_early_check_changes_nothing (FrameDropsHelper.init 0) 1000000000 1000000000 rfl
      (by decide)).1,
   ((C26_early_check_changes_nothing (FrameDropsHelper.init 0) 1000000000 1000000000 rfl
      (by decide)).2.2 2 2 3000000000 3000000000 (by decide) (by decide) (by decide)).2
      (by decide)⟩

theorem needs_bitrate_reduction_true_elapsed (s : FrameDropsHelper) (now stamp : Int)
    (h : (needs_bitrate_reduction s now stamp).1 = true) :
    now - s.m_last_check ≥ seconds 3 ∧
    (needs_bitrate_reduction s now stamp).2.m_last_check = stamp := by
  unfold needs_bitrate_reduction at h ⊢
  cases hd : s.m_opt_no_error_delay with
  | some u =>
    rw [hd] at h
    simp only at h
    split_ifs at h
  | none =>
    rw [hd] at h
    simp only at h ⊢
    split_ifs at h ⊢ with h1 h2
    exact ⟨h1, rfl⟩

theorem needs_bitrate_reduction_last_check (s : FrameDropsHelper) (now stamp : Int) :
    (needs_bitrate_reduction s now stamp).2.m_last_check = s.m_last_check ∨
    (needs_bitrate_reduction s now stamp).2.m_last_check = stamp := by
  unfold needs_bitrate_reduction
  cases s.m_opt_no_error_delay with
  | some u => simp only; split_ifs <;> simp
  | none => simp only; split_ifs <;> simp

theorem run_ops_true_after (ops : List Op) :
    ∀ (s : FrameDropsHelper) (B lo : Int), B ≤ s.m_last_check → B ≤ lo →
      non_decreasing_clock lo ops →
      ∀ a ∈ run_ops s ops, a.2 = true → a.1 - B ≥ seconds 3 := by
  induction ops with
  | nil => intro s B lo _ _ _ a ha; simp [run_ops] at ha
  | cons op ops ih =>
    intro s B lo hB hlo hmono a ha htrue
    cases op with
    | notify n =>
      simp only [run_ops] at ha
      exact ih (notify_dropped_frame s n) B lo hB hlo hmono a ha htrue
    | delay now d =>
      simp only [run_ops] at ha
      obtain ⟨h1, h2⟩ := hmono
      exact ih (delay_for s now d) B now hB (le_trans hlo h1) h2 a ha htrue
    | check now stamp =>
      obtain ⟨h1, h2, h3⟩ := hmono
      simp only [run_ops, List.mem_cons] at ha
      rcases ha with ha | ha
      · subst ha
        have := (needs_bitrate_reduction_true_elapsed s now stamp htrue).1
        simp only [ge_iff_le] at this ⊢
        omega
      · refine ih _ B stamp ?_ (by omega) h3 a ha htrue
        rcases needs_bitrate_reduction_last_check s now stamp with h | h
        · rw [h]; exact hB
        · rw [h]; omega

theorem run_ops_pairwise (ops : List Op) :
    ∀ (s : FrameDropsHelper) (lo : Int), non_decreasing_clock lo ops →
      (run_ops s ops).Pairwise (fun a b => a.2 = true → b.2 = true → b.1 - a.1 ≥ seconds 3) := by
  induction ops with
  | nil => intro s lo _; simp [run_ops]
  | cons op ops ih =>
    intro s lo hmono
    cases op with
    | notify n => simpa only [run_ops] using ih _ lo hmono
    | delay now d => simpa only [run_ops] using ih _ now hmono.2
    | check now stamp =>
      obtain ⟨h1, h2, h3⟩ := hmono
      simp only [run_ops, List.pairwise_cons]
      refine ⟨?_, ih _ stamp h3⟩
      intro b hb htrue hbtrue
      have hst := (needs_bitrate_reduction_true_elapsed s now stamp htrue).2
      exact run_ops_true_after ops _ now stamp (by rw [hst]; exact h2) h2 h3 b hb hbtrue

/-- C25: on a helper constructed at `t0` and driven by any sequence of
`notify_dropped_frame`, `delay_for` and `needs_bitrate_reduction` calls with
non-decreasing clock readings, two checks that return true decide at least 3
seconds apart, and no check returns true earlier than 3 seconds after `t0`. -/
theorem C25_reduction_signal_rate_limit (t0 : Int) (ops : List Op)
    (hclock : non_decreasing_clock t0 ops) :
    (run_ops (FrameDropsHelper.init t0) ops).Pairwise
      (fun a b => a.2 = true → b.2 = true → b.1 - a.1 ≥ seconds 3) ∧
    ∀ a ∈ run_ops (FrameDropsHelper.init t0) ops, a.2 = true → a.1 - t0 ≥ seconds 3 :=
  ⟨run_ops_pairwise ops _ t0 hclock,
   run_ops_true_after ops _ t0 t0 (le_refl _) (le_refl _) hclock⟩

/-- Witness for C25: true at 3 s, false at 4 s in spite of ten drops, false at
5 s at the end of a delay, true again at 8 s. -/
theorem C25_reduction_signal_rate_limit_witness :
    run_ops (FrameDropsHelper.init 0)
        [Op.notify 4, Op.check 3000000000 3000000000, Op.notify 10,
         Op.check 4000000000 4000000000, Op.delay 4000000000 1000,
         Op.check 5000000000 5000000000, Op.notify 5, Op.check 8000000000 8000000000]
      = [(3000000000, true), (4000000000, false), (5000000000, false), (8000000000, true)] ∧
    (run_ops (FrameDropsHelper.init 0)
        [Op.notify 4, Op.check 3000000000 3000000000, Op.notify 10,
         Op.check 4000000000 4000000000, Op.delay 4000000000 1000,
         Op.check 5000000000 5000000000, Op.notify 5, Op.check 8000000000 8000000000]).Pairwise
      (fun a b => a.2 = true → b.2 = true → b.1 - a.1 ≥ seconds 3) :=
  ⟨by decide,
   (C25_reduction_signal_rate_limit 0
      [Op.notify 4, Op.check 3000000000 3000000000, Op.notify 10,
       Op.check 4000000000 4000000000, Op.delay 4000000000 1000,
       Op.check 5000000000 5000000000, Op.notify 5, Op.check 8000000000 8000000000]
      (by simp [non_decreasing_clock])).1⟩

theorem update_wifi_hotspot_enable_nw_settings (o o2 : OHDInterface)
    (h : OHDInterface.update_wifi_hotspot_enable o = some o2) :
    o2.m_nw_settings = o.m_nw_settings := by
  unfold OHDInterface.update_wifi_hotspot_enable at h
  cases hh : o.m_wifi_hotspot with
  | none => rw [hh] at h; simp at h
  | some hotspot =>
    rw [hh] at h
    cases hs : o.m_nw_settings.get_settings with
    | none => rw [hs] at h; simp at h
    | some settings =>
      rw [hs] at h
      simp only [Option.some.injEq] at h
      rw [← h]

theorem persist_some_of_settings {T : Type} (impl : PersistentSettingsImpl T)
    (p : PersistentSettings T) (w w1 : World) (t : Bool)
    (h : PersistentSettings.persist impl p w t = some w1) : ∃ v, p._settings = some v := by
  unfold PersistentSettings.persist PersistentSettings.persist_settings at h
  cases hs : p._settings with
  | none => rw [hs] at h; simp at h
  | some v => exact ⟨v, rfl⟩

theorem cb_wifi_hotspot_mode_keeps_valid (impl : PersistentSettingsImpl NetworkingSettings)
    (o : OHDInterface) (value : Int) (r : Bool × OHDInterface)
    (hinv : ∀ st, o.m_nw_settings._settings = some st →
      st.wifi_hotspot_mode = 0 ∨ st.wifi_hotspot_mode = 1 ∨ st.wifi_hotspot_mode = 2)
    (h : OHDInterface.cb_wifi_hotspot_mode impl o value = some r) :
    ∀ st, r.2.m_nw_settings._settings = some st →
      st.wifi_hotspot_mode = 0 ∨ st.wifi_hotspot_mode = 1 ∨ st.wifi_hotspot_mode = 2 := by
  unfold OHDInterface.cb_wifi_hotspot_mode at h
  by_cases hv : is_valid_wifi_hotspot_mode value = true
  · have hval : value = 0 ∨ value = 1 ∨ value = 2 := by
      unfold is_valid_wifi_hotspot_mode at hv
      simp only [Bool.or_eq_true, decide_eq_true_eq] at hv
      tauto
    simp only [hv, Bool.not_true, Bool.false_eq_true, if_false] at h
    cases hs : o.m_nw_settings.unsafe_get_settings with
    | none => rw [hs] at h; simp at h
    | some settings =>
      rw [hs] at h
      simp only at h
      cases hp : PersistentSettings.persist impl
          { o.m_nw_settings with
            _settings := some { settings with wifi_hotspot_mode := value } } o.world true with
      | none => rw [hp] at h; simp at h
      | some w1 =>
        rw [hp] at h
        simp only at h
        cases hu : OHDInterface.update_wifi_hotspot_enable
            { o with
              m_nw_settings :=
                { o.m_nw_settings with
                  _settings := some { settings with wifi_hotspot_mode := value } },
              world := w1 } with
        | none => rw [hu] at h; simp at h
        | some o2 =>
          rw [hu] at h
          simp only [Option.some.injEq] at h
          have hnw := update_wifi_hotspot_enable_nw_settings _ _ hu
          intro st hst
          rw [← h] at hst
          simp only [hnw, Option.some.injEq] at hst
          rw [← hst]
          exact hval
  · simp only [hv, Bool.not_false, if_true, Option.some.injEq] at h
    rw [← h]
    exact hinv

theorem cb_ethernet_keeps_wifi_mode (impl : PersistentSettingsImpl NetworkingSettings)
    (o : OHDInterface) (value : Int) (r : Bool × OHDInterface)
    (hinv : ∀ st, o.m_nw_settings._settings = some st →
      st.wifi_hotspot_mode = 0 ∨ st.wifi_hotspot_mode = 1 ∨ st.wifi_hotspot_mode = 2)
    (h : OHDInterface.cb_ethernet impl o value = some r) :
    ∀ st, r.2.m_nw_settings._settings = some st →
      st.wifi_hotspot_mode = 0 ∨ st.wifi_hotspot_mode = 1 ∨ st.wifi_hotspot_mode = 2 := by
  unfold OHDInterface.cb_ethernet at h
  cases hs : o.m_nw_settings.unsafe_get_settings with
  | none => rw [hs] at h; simp at h
  | some settings =>
    rw [hs] at h
    simp only at h
    cases hp : PersistentSettings.persist impl
        { o.m_nw_settings with
          _settings := some { settings with ethernet_operating_mode := value } }
        o.world true with
    | none => rw [hp] at h; simp at h
    | some w1 =>
      rw [hp] at h
      simp only [Option.some.injEq] at h
      intro st hst
      rw [← h] at hst
      simp only [Option.some.injEq] at hst
      rw [← hst]
      exact hinv settings hs

theorem run_setting_calls_keeps_wifi_mode (impl : PersistentSettingsImpl NetworkingSettings)
    (cs : List OHDInterface.SettingCall) :
    ∀ (o o2 : OHDInterface),
      (∀ st, o.m_nw_settings._settings = some st →
        st.wifi_hotspot_mode = 0 ∨ st.wifi_hotspot_mode = 1 ∨ st.wifi_hotspot_mode = 2) →
      OHDInterface.run_setting_calls impl o cs = some o2 →
      ∀ st, o2.m_nw_settings._settings = some st →
        st.wifi_hotspot_mode = 0 ∨ st.wifi_hotspot_mode = 1 ∨ st.wifi_hotspot_mode = 2 := by
  induction cs with
  | nil =>
    intro o o2 hinv h
    simp only [OHDInterface.run_setting_calls, Option.some.injEq] at h
    rw [← h]; exact hinv
  | cons c cs ih =>
    intro o o2 hinv h
    cases c with
    | WIFI_HOTSPOT_E v =>
      simp only [OHDInterface.run_setting_calls] at h
      cases hc : OHDInterface.cb_wifi_hotspot_mode impl o v with
      | none => rw [hc] at h; simp at h
      | some r =>
        rw [hc] at h
        exact ih r.2 o2 (cb_wifi_hotspot_mode_keeps_valid impl o v r hinv hc) h
    | ETHERNET v =>
      simp only [OHDInterface.run_setting_calls] at h
      cases hc : OHDInterface.cb_ethernet impl o v with
      | none => rw [hc] at h; simp at h
      | some r =>
        rw [hc] at h
        exact ih r.2 o2 (cb_ethernet_keeps_wifi_mode impl o v r hinv hc) h

/-- C28, evaluation of the code: from the default record, the `ETHERNET` change
callback called with 7 returns true and stores 7 as `ethernet_operating_mode`,
which is none of the modes 0, 1, 2; the same through a sequence of calls. -/
theorem C28_ethernet_mode_not_validated :
    Option.map (fun r => (r.1, r.2.m_nw_settings._settings))
      (OHDInterface.cb_ethernet (NetworkingSettingsHolder (fun _ => none) (fun _ => "json"))
        ⟨some ⟨true, 5180⟩,
          ⟨"/cfg/", some (NetworkingSettingsHolder (fun _ => none)
            (fun _ => "json")).create_default, false⟩,
          ⟨false⟩, ⟨0, 0⟩, World.empty⟩ 7)
      = some (true, some ⟨0, 7⟩) ∧
    Option.map (fun o => o.m_nw_settings._settings)
      (OHDInterface.run_setting_calls
        (NetworkingSettingsHolder (fun _ => none) (fun _ => "json"))
        ⟨some ⟨true, 5180⟩,
          ⟨"/cfg/", some (NetworkingSettingsHolder (fun _ => none)
            (fun _ => "json")).create_default, false⟩,
          ⟨false⟩, ⟨0, 0⟩, World.empty⟩
        [OHDInterface.SettingCall.WIFI_HOTSPOT_E 5, OHDInterface.SettingCall.ETHERNET 7])
      = some (some ⟨0, 7⟩) ∧
    ((7 : Int) ≠ ETHERNET_OPERATING_MODE_UNTOUCHED ∧
      (7 : Int) ≠ ETHERNET_OPERATING_MODE_HOTSPOT ∧
      (7 : Int) ≠ ETHERNET_OPERATING_MODE_EXTERNAL_DEVICE) := by
  decide

/-- C30: after construction at most one link handle is not null: the Ethernet
link if ethernet.txt exists, else the Microhard link if a device is present, else
the WifiBroadcast link exactly when a monitor mode card was found; and
`get_link_handle()` returns that handle, or null when none was created. -/
theorem C30_link_backend_selection (p : Probes) :
    (OHDInterface.construct_links p).count_non_null ≤ 1 ∧
    (p.ethernet_txt_exists = true →
      OHDInterface.construct_links p = ⟨some {}, none, none, []⟩ ∧
      OHDInterface.get_link_handle (OHDInterface.construct_links p)
        = some (OHDLink.ethernet {})) ∧
    (p.ethernet_txt_exists = false → is_microhard_device_present p = true →
      OHDInterface.construct_links p = ⟨none, some {}, none, []⟩ ∧
      OHDInterface.get_link_handle (OHDInterface.construct_links p)
        = some (OHDLink.microhard {})) ∧
    (p.ethernet_txt_exists = false → is_microhard_device_present p = false →
      (OHDInterface.construct_links p).m_ethernet_link = none ∧
      (OHDInterface.construct_links p).m_microhard_link = none ∧
      ((OHDInterface.construct_links p).m_wb_link.isSome = true
        ↔ p.discovered_monitor_mode_cards ≠ []) ∧
      (p.discovered_monitor_mode_cards ≠ [] →
        OHDInterface.get_link_handle (OHDInterface.construct_links p)
          = some (OHDLink.wifibroadcast ⟨p.discovered_monitor_mode_cards⟩)) ∧
      (p.discovered_monitor_mode_cards = [] →
        OHDInterface.get_link_handle (OHDInterface.construct_links p) = none)) := by
  unfold OHDInterface.construct_links
  cases he : p.ethernet_txt_exists
  · cases hm : is_microhard_device_present p
    · cases hc : p.discovered_monitor_mode_cards with
      | nil =>
        simp [OHDInterface.get_link_handle, OHDInterface.Links.count_non_null]
      | cons c cs =>
        simp [OHDInterface.get_link_handle, OHDInterface.Links.count_non_null]
    · simp [OHDInterface.get_link_handle, OHDInterface.Links.count_non_null]
  · simp [OHDInterface.get_link_handle, OHDInterface.Links.count_non_null]

/-- Witness for C30: with wfb.txt present, no ethernet.txt and one monitor mode
card the WifiBroadcast link is the handle; with ethernet.txt the Ethernet link. -/
theorem C30_link_backend_selection_witness :
    OHDInterface.get_link_handle
        (OHDInterface.construct_links
          ⟨true, false, true, [⟨WiFiCardType.OPENHD_RTL_88X2AU⟩]⟩)
      = some (OHDLink.wifibroadcast ⟨[⟨WiFiCardType.OPENHD_RTL_88X2AU⟩]⟩) ∧
    OHDInterface.get_link_handle
        (OHDInterface.construct_links
          ⟨false, true, true, [⟨WiFiCardType.OPENHD_RTL_88X2AU⟩]⟩)
      = some (OHDLink.ethernet {}) :=
  ⟨((C30_link_backend_selection
      ⟨true, false, true, [⟨WiFiCardType.OPENHD_RTL_88X2AU⟩]⟩).2.2.2 rfl rfl).2.2.2.1
      (by decide),
   ((C30_link_backend_selection
      ⟨false, true, true, [⟨WiFiCardType.OPENHD_RTL_88X2AU⟩]⟩).2.1 rfl).2⟩
